import Mathlib

/-!
Shallow embedding of the conflict-detection and routine-scheduling core of the
my-beauty-ai-skincare repository, with theorems checking the natural-language
specification against the code.

The repository has two variants of each core module:
  * `Cur`  — the current `conflict_analyzer.py` / `routine_optimizer.py`;
  * `V0`   — the `ver.0/` variants of the same two modules.
Python strings are modelled as Lean `String`s (all relevant data is ASCII),
Python floats as `ℚ` (every constant in the code is a short decimal), Python
dicts as insertion-ordered association lists, and raising code as
`Except String` with the error text naming the Python exception.
-/

namespace Py

/-- Lexicographic comparison of character lists by code point, the semantics of
Python string `<` on ASCII data. -/
def charListLt : List Char → List Char → Bool
  | [], [] => false
  | [], _ :: _ => true
  | _ :: _, [] => false
  | a :: as, b :: bs =>
    if a.val < b.val then true
    else if b.val < a.val then false
    else charListLt as bs

/-- Python string comparison `a < b`. -/
def strLt (a b : String) : Bool := charListLt a.data b.data

/-- Whether `needle` occurs at the start of `hay`. -/
def isPre : List Char → List Char → Bool
  | [], _ => true
  | _ :: _, [] => false
  | a :: as, b :: bs => a == b && isPre as bs

/-- Whether `needle` occurs contiguously inside `hay`. -/
def subList (needle : List Char) : List Char → Bool
  | [] => needle.isEmpty
  | b :: bs => isPre needle (b :: bs) || subList needle bs

/-- Python membership test `needle in hay` on strings (contiguous substring). -/
def strIn (needle hay : String) : Bool := subList needle.data hay.data

/-- Python `str.lower()` on ASCII data. -/
def lower (s : String) : String := ⟨s.data.map Char.toLower⟩

/-- Python `str.strip()`: remove leading and trailing whitespace. -/
def strip (s : String) : String :=
  ⟨((s.data.dropWhile Char.isWhitespace).reverse.dropWhile Char.isWhitespace).reverse⟩

/-- Python `sorted([a, b])` for two strings, as an ordered pair. -/
def sortedPair (a b : String) : String × String :=
  if strLt b a then (b, a) else (a, b)

/-- Lookup in a dict modelled as a write log: the most recent binding wins. -/
def lookupLast {α : Type} (log : List (Nat × α)) (k : Nat) : Option α :=
  ((log.filter fun e => e.1 = k).getLast?).map (·.2)

/-- Python `max` over a list of naturals with default 0 for the empty list. -/
def natMax (l : List Nat) : Nat := l.foldl Nat.max 0

/-- The `for i, x in enumerate(l): for y in l[i+1:]` pair loop. -/
def upperPairs : List String → List (String × String)
  | [] => []
  | x :: xs => (xs.map fun y => (x, y)) ++ upperPairs xs

end Py

namespace Cur

/-- Severity levels of `conflict_analyzer.ConflictSeverity`; each member's
`.value` is its lowercase string, exactly as in the Python `Enum`. -/
inductive ConflictSeverity
  | low | medium | high | critical
deriving DecidableEq

/-- The `.value` string attached to each `ConflictSeverity` member. -/
def ConflictSeverity.value : ConflictSeverity → String
  | .low => "low"
  | .medium => "medium"
  | .high => "high"
  | .critical => "critical"

/-- The `ConflictType` enum of the current analyzer. -/
inductive ConflictType
  | chemical | physical | effectiveness | ph_incompatibility | photosensitivity
deriving DecidableEq

/-- The `ConflictResult` dataclass of the current analyzer. -/
structure ConflictResult where
  ingredient1 : String
  ingredient2 : String
  conflict_type : ConflictType
  severity : ConflictSeverity
  description : String
  scientific_explanation : Option String := none
  recommendations : List String := []
  confidence_score : ℚ := 0
  source : String := "database"
  separation_hours : Option Nat := none
deriving DecidableEq

/-- One iteration of the dict-building loop in `_deduplicate_conflicts`: the key
is the sorted ingredient pair; an existing entry is replaced when the incoming
conflict has a larger severity `.value` STRING (Python compares the enum value
strings lexicographically here), or equal severity and larger confidence. -/
def dedupStep (m : List ((String × String) × ConflictResult)) (c : ConflictResult) :
    List ((String × String) × ConflictResult) :=
  let k := Py.sortedPair c.ingredient1 c.ingredient2
  match m.find? (fun e => e.1 == k) with
  | none => m ++ [(k, c)]
  | some e =>
    if Py.strLt e.2.severity.value c.severity.value = true ∨
        (c.severity = e.2.severity ∧ e.2.confidence_score < c.confidence_score) then
      m.map (fun x => if x.1 == k then (k, c) else x)
    else m

/-- The `_deduplicate_conflicts` method: fold the conflicts into an
insertion-ordered map keyed by the unordered pair, then list the values. -/
def deduplicate_conflicts (conflicts : List ConflictResult) : List ConflictResult :=
  (conflicts.foldl dedupStep []).map (·.2)

/-- An `Ingredient` row as used by the current analyzer. -/
structure Ingredient where
  ingredient_id : Nat
  ingredient_name : String
deriving DecidableEq

/-- The `ph_sensitive_acids` set of `_setup_heuristic_rules`. -/
def ph_sensitive_acids : List String :=
  ["vitamin_c", "l-ascorbic acid", "magnesium ascorbyl phosphate",
   "glycolic acid", "lactic acid", "mandelic acid", "salicylic acid",
   "kojic acid", "azelaic acid"]

/-- The `ph_sensitive_bases` set of `_setup_heuristic_rules`. -/
def ph_sensitive_bases : List String :=
  ["retinol", "retinyl palmitate", "tretinoin", "adapalene",
   "niacinamide", "peptides"]

/-- The `sensitizers` set of `_setup_heuristic_rules`. -/
def sensitizers : List String :=
  ["retinol", "tretinoin", "glycolic acid", "lactic acid",
   "salicylic acid", "benzoyl peroxide"]

/-- The pH-incompatibility verdict built inside `_check_heuristic_conflicts`. -/
def mkPhConflict (i1 i2 : Ingredient) : ConflictResult :=
  { ingredient1 := i1.ingredient_name, ingredient2 := i2.ingredient_name,
    conflict_type := .ph_incompatibility, severity := .medium,
    description := "pH incompatibility between " ++ i1.ingredient_name ++
      " and " ++ i2.ingredient_name,
    scientific_explanation :=
      some "Different pH requirements may reduce effectiveness or cause irritation",
    confidence_score := 7/10, source := "heuristic",
    recommendations :=
      ["Use in different routines (AM/PM)",
       "Allow 30+ minutes between applications",
       "Consider pH-buffered formulations"] }

/-- The single multiple-sensitizers verdict built inside
`_check_heuristic_conflicts` when three or more sensitizers are present. -/
def mkMultiSensitizerConflict (sensitizer_names : List String) : ConflictResult :=
  { ingredient1 := sensitizer_names.headD "", ingredient2 := "Multiple Sensitizers",
    conflict_type := .chemical, severity := .high,
    description := "High risk of irritation from multiple sensitizing ingredients: " ++
      String.intercalate ", " sensitizer_names,
    scientific_explanation :=
      some "Combining multiple sensitizing ingredients increases risk of irritation and compromised skin barrier",
    confidence_score := 4/5, source := "heuristic",
    recommendations :=
      ["Introduce products gradually", "Use lower concentrations",
       "Monitor skin response carefully", "Consider alternating usage days"] }

/-- The pH block of `_check_heuristic_conflicts`: when both an acid and a base
are present, scan all ordered ingredient pairs (as the source's nested loop
does) for acid/base combinations. -/
def phPairConflicts (ingredients : List Ingredient) : List ConflictResult :=
  let names := ingredients.map fun i => Py.lower i.ingredient_name
  let has_acids := ph_sensitive_acids.any fun a => names.contains a
  let has_bases := ph_sensitive_bases.any fun b => names.contains b
  if has_acids && has_bases then
    (ingredients.map fun i1 =>
      ingredients.filterMap fun i2 =>
        if ph_sensitive_acids.contains (Py.lower i1.ingredient_name) &&
            ph_sensitive_bases.contains (Py.lower i2.ingredient_name) then
          some (mkPhConflict i1 i2)
        else none).flatten
  else []

/-- The `sensitizer_names` list of `_check_heuristic_conflicts` (the same
filter also yields `sensitizer_count`). -/
def sensitizer_names (ingredients : List Ingredient) : List String :=
  (ingredients.filter fun i => sensitizers.contains (Py.lower i.ingredient_name)).map
    (·.ingredient_name)

/-- The `_check_heuristic_conflicts` method: the pairwise acid/base pH loop,
followed by the whole-set multiple-sensitizer check that emits at most ONE
verdict per analysis. -/
def check_heuristic_conflicts (ingredients : List Ingredient) : List ConflictResult :=
  phPairConflicts ingredients ++
    (if 3 ≤ (sensitizer_names ingredients).length then
      [mkMultiSensitizerConflict (sensitizer_names ingredients)]
    else [])

/-- A `Product` row: id, name, and `(ingredient_id, is_active)` references. -/
structure DbProduct where
  product_id : Nat
  product_name : String
  product_ingredients : List (Nat × Bool)
deriving DecidableEq

/-- An `IngredientConflict` rule row as read by `_check_database_conflicts`. -/
structure ConflictRow where
  ingredient1_id : Nat
  ingredient2_id : Nat
  conflict_type : String
  severity_value : String
  description : String
  scientific_explanation : Option String
  recommended_separation_hours : Option Nat
  alternative_suggestions : Option String
deriving DecidableEq

/-- A skin-sensitivity warning dict as built by `_check_skin_sensitivities`. -/
structure SkinWarning where
  ingredient : String
  skin_type : String
  sensitivity_level : String
  description : String
  patch_test_required : Bool
deriving DecidableEq

/-- The database session, as an oracle: each call may return rows or raise. -/
structure Db where
  getProduct : String → Except String (Option DbProduct)
  getIngredients : List Nat → Except String (List Ingredient)
  getConflictRows : List Nat → Except String (List ConflictRow)
  getSensitivities : List Nat → String → Except String (List SkinWarning)

/-- The `_get_products_by_names` loop: a failed lookup raises (propagates), a
missing product is skipped with a warning. -/
def get_products_by_names (db : Db) : List String → Except String (List DbProduct)
  | [] => .ok []
  | n :: ns => do
    let p ← db.getProduct n
    let rest ← get_products_by_names db ns
    match p with
    | some prod => .ok (prod :: rest)
    | none => .ok rest

/-- The `_extract_ingredients_from_products` method: collect the active
ingredient ids (a Python set, modelled order-preservingly) and query the rows. -/
def extract_ingredients (db : Db) (products : List DbProduct) :
    Except String (List Ingredient) :=
  let ids := ((products.map fun p =>
    (p.product_ingredients.filter (·.2)).map (·.1)).flatten).eraseDups
  db.getIngredients ids

/-- Python `ConflictType(s)`: value lookup, raising `ValueError` otherwise. -/
def conflictTypeOf (s : String) : Except String ConflictType :=
  if s = "chemical" then .ok .chemical
  else if s = "physical" then .ok .physical
  else if s = "effectiveness" then .ok .effectiveness
  else if s = "ph_incompatibility" then .ok .ph_incompatibility
  else if s = "photosensitivity" then .ok .photosensitivity
  else .error "ValueError"

/-- Python `ConflictSeverity(s)`: value lookup, raising `ValueError` otherwise. -/
def conflictSeverityOf (s : String) : Except String ConflictSeverity :=
  if s = "low" then .ok .low
  else if s = "medium" then .ok .medium
  else if s = "high" then .ok .high
  else if s = "critical" then .ok .critical
  else .error "ValueError"

/-- Python `next(ing for ing in ingredients if ...)`: the first match, raising
`StopIteration` when there is none. -/
def resolveIngredient (ingredients : List Ingredient) (i : Nat) :
    Except String Ingredient :=
  match ingredients.find? fun ing => ing.ingredient_id == i with
  | some ing => .ok ing
  | none => .error "StopIteration"

/-- The per-row body of `_check_database_conflicts`: resolve both names, parse
the enums, and attach the stock recommendations. -/
def conflictFromRow (ingredients : List Ingredient) (row : ConflictRow) :
    Except String ConflictResult := do
  let ing1 ← resolveIngredient ingredients row.ingredient1_id
  let ing2 ← resolveIngredient ingredients row.ingredient2_id
  let ctype ← conflictTypeOf row.conflict_type
  let sev ← conflictSeverityOf row.severity_value
  let recs :=
    (match row.alternative_suggestions with
     | some s => [s]
     | none => []) ++
    (match row.recommended_separation_hours with
     | some h =>
       if h ≠ 0 then
         ["Separate usage by at least " ++ toString h ++ " hours"]
       else []
     | none => [])
  .ok { ingredient1 := ing1.ingredient_name, ingredient2 := ing2.ingredient_name,
        conflict_type := ctype, severity := sev, description := row.description,
        scientific_explanation := row.scientific_explanation,
        confidence_score := 9/10, source := "database",
        separation_hours := row.recommended_separation_hours,
        recommendations := recs }

/-- The `_check_database_conflicts` method; note it has NO try/except, so both
the query and the row mapping propagate exceptions. -/
def check_database_conflicts (db : Db) (ingredients : List Ingredient) :
    Except String (List ConflictResult) := do
  let rows ← db.getConflictRows (ingredients.map (·.ingredient_id))
  rows.mapM (conflictFromRow ingredients)

/-- The `_check_skin_sensitivities` method: its try/except degrades a raising
query to an empty warning list. -/
def check_skin_sensitivities (db : Db) (ingredients : List Ingredient)
    (skin_type : String) : List SkinWarning :=
  match db.getSensitivities (ingredients.map (·.ingredient_id)) skin_type with
  | .ok ws => ws
  | .error _ => []

/-- The `_find_safe_combinations` method. -/
def find_safe_combinations (ingredients : List Ingredient)
    (conflicts : List ConflictResult) : List (String × String) :=
  let conflicted := conflicts.map fun c => Py.sortedPair c.ingredient1 c.ingredient2
  (Py.upperPairs (ingredients.map (·.ingredient_name))).filter fun p =>
    ¬ conflicted.contains (Py.sortedPair p.1 p.2)

/-- The `_calculate_overall_severity` method. The source computes
`max(conflict.severity for conflict in conflicts)`, but `ConflictSeverity` is
a plain `Enum` whose members define no ordering; `max` only compares from the
second element on, so a single conflict passes through while two or more raise
`TypeError`. The empty list returns LOW. -/
def calculate_overall_severity (conflicts : List ConflictResult) :
    Except String ConflictSeverity :=
  match conflicts with
  | [] => .ok .low
  | [c] => .ok c.severity
  | _ :: _ :: _ =>
    .error "TypeError: not supported between instances of ConflictSeverity"

/-- The severity weights of `_calculate_analysis_confidence`. -/
def severityWeight : ConflictSeverity → ℚ
  | .low => 1/2
  | .medium => 7/10
  | .high => 9/10
  | .critical => 1

/-- Python `round(x, 2)` (round-half-to-even), on the exact rational model. -/
def roundq2 (x : ℚ) : ℚ :=
  let y := x * 100
  let f : ℤ := ⌊y⌋
  let r : ℚ := y - f
  let n : ℤ :=
    if r < 1/2 then f
    else if (1:ℚ)/2 < r then f + 1
    else if f % 2 = 0 then f else f + 1
  (n : ℚ) / 100

/-- The `_calculate_analysis_confidence` method. -/
def calculate_analysis_confidence (conflicts : List ConflictResult)
    (has_user_context : Bool) : ℚ :=
  if conflicts.isEmpty then 4/5
  else
    let total_weighted :=
      (conflicts.map fun c => c.confidence_score * severityWeight c.severity).sum
    let total_weights := (conflicts.map fun c => severityWeight c.severity).sum
    let base := if 0 < total_weights then total_weighted / total_weights else 1/2
    let base := if has_user_context then min (base + 1/10) 1 else base
    roundq2 base

/-- The `_generate_recommendations` method (byte-for-byte strings from the
source, including its mojibake emoji). -/
def generate_recommendations (conflicts : List ConflictResult)
    (skin_warnings : List SkinWarning) (skin_type : Option String) : List String :=
  if conflicts.isEmpty && skin_warnings.isEmpty then
    ["âœ… No major conflicts detected between these ingredients.",
     "Always perform patch tests when introducing new products."]
  else
    let criticals := conflicts.filter fun c => c.severity = .critical
    let critLines :=
      if criticals.isEmpty then []
      else "âš ï¸ CRITICAL: Do not use these products together:" ::
        criticals.map fun c => "   â€¢ " ++ c.ingredient1 ++ " + " ++ c.ingredient2
    let highs := conflicts.filter fun c => c.severity = .high
    let highLines :=
      if highs.isEmpty then []
      else "ðŸ”¸ HIGH PRIORITY: Consider separating these combinations:" ::
        (highs.map fun c =>
          ("   â€¢ " ++ c.ingredient1 ++ " + " ++ c.ingredient2) ::
          (match c.separation_hours with
           | some h =>
             if h ≠ 0 then ["     â†’ Separate by " ++ toString h ++ "+ hours"] else []
           | none => [])).flatten
    let generalLines :=
      if conflicts.isEmpty then []
      else ["ðŸ’¡ General Recommendations:",
            "   â€¢ Start with one new product at a time",
            "   â€¢ Use morning/evening separation for conflicting ingredients",
            "   â€¢ Monitor skin for any irritation or sensitivity"]
    let skinLines :=
      if skin_warnings.isEmpty then []
      else ("ðŸŽ¯ " ++ (skin_type.getD "Your skin type") ++ " Skin Considerations:") ::
        (skin_warnings.filter fun w =>
          w.sensitivity_level = "high" ∨ w.sensitivity_level = "avoid").map
          fun w => "   â€¢ Use " ++ w.ingredient ++ " with extra caution"
    critLines ++ highLines ++ generalLines ++ skinLines

/-- The report dataclass assembled by `analyze_products` (the wall-clock
timestamp field is omitted from the model). -/
structure ConflictAnalysisReport where
  products : List String
  ingredients : List String
  conflicts : List ConflictResult
  skin_type_warnings : List SkinWarning
  overall_severity : ConflictSeverity
  safe_combinations : List (String × String)
  recommendations : List String
  confidence_score : ℚ
deriving DecidableEq

/-- The `analyze_products` entry point (no user id, no RAG system configured),
with the database as an oracle. There is no try/except anywhere on this path:
any exception below propagates to the caller. -/
def analyze_products (db : Db) (product_names : List String)
    (skin_type : Option String) : Except String ConflictAnalysisReport := do
  let products ← get_products_by_names db product_names
  let all_ingredients ← extract_ingredients db products
  let db_conflicts ← check_database_conflicts db all_ingredients
  let heuristic_conflicts := check_heuristic_conflicts all_ingredients
  let conflicts := db_conflicts ++ heuristic_conflicts
  let skin_warnings :=
    match skin_type with
    | some st => check_skin_sensitivities db all_ingredients st
    | none => []
  let unique_conflicts := deduplicate_conflicts conflicts
  let safe_combinations := find_safe_combinations all_ingredients unique_conflicts
  let overall_severity ← calculate_overall_severity unique_conflicts
  let recommendations := generate_recommendations unique_conflicts skin_warnings skin_type
  let confidence := calculate_analysis_confidence unique_conflicts skin_type.isSome
  .ok { products := product_names,
        ingredients := all_ingredients.map (·.ingredient_name),
        conflicts := unique_conflicts,
        skin_type_warnings := skin_warnings,
        overall_severity := overall_severity,
        safe_combinations := safe_combinations,
        recommendations := recommendations,
        confidence_score := confidence }

end Cur

namespace CurEx

/-- A critical-severity database verdict for the pair Retinol / Vitamin C. -/
def critVerdict : Cur.ConflictResult :=
  { ingredient1 := "Retinol", ingredient2 := "Vitamin C",
    conflict_type := .chemical, severity := .critical,
    description := "critical database rule", confidence_score := 9/10,
    source := "database", separation_hours := some 24 }

/-- A medium-severity heuristic verdict for the same pair with lower confidence. -/
def medVerdict : Cur.ConflictResult :=
  { ingredient1 := "Retinol", ingredient2 := "Vitamin C",
    conflict_type := .ph_incompatibility, severity := .medium,
    description := "pH heuristic", confidence_score := 1/2,
    source := "heuristic" }

end CurEx

/-- C1: after deduplication the surviving verdict for {Retinol, Vitamin C} is the
MEDIUM one, not the CRITICAL one: `_deduplicate_conflicts` compares the enum
value strings, and "medium" > "critical" lexicographically. This exhibits the
code contradicting its own docstring ("keep highest severity/confidence"). -/
theorem dedup_keeps_medium_over_critical :
    Cur.deduplicate_conflicts [CurEx.critVerdict, CurEx.medVerdict] = [CurEx.medVerdict] := rfl

namespace CurEx

/-- A product whose single active ingredient is Retinol. -/
def productA : Cur.DbProduct :=
  { product_id := 10, product_name := "Product A", product_ingredients := [(1, true)] }

/-- A product whose active ingredients are Salicylic Acid and Glycolic Acid. -/
def productB : Cur.DbProduct :=
  { product_id := 11, product_name := "Product B",
    product_ingredients := [(2, true), (3, true)] }

/-- A perfectly well-behaved database: both products resolve, the ingredient
rows come back, there are no stored conflict rules, and nothing ever raises. -/
def demoDb : Cur.Db :=
  { getProduct := fun n =>
      .ok (if n = "Product A" then some productA
        else if n = "Product B" then some productB
        else none),
    getIngredients := fun _ =>
      .ok [⟨1, "Retinol"⟩, ⟨2, "Salicylic Acid"⟩, ⟨3, "Glycolic Acid"⟩],
    getConflictRows := fun _ => .ok [],
    getSensitivities := fun _ _ => .ok [] }

end CurEx

/-- C3: `analyze_products` raises to its caller. With a database that never
raises and holds no conflict rules, the heuristic detector finds two pH pairs
(Salicylic/Retinol, Glycolic/Retinol) and a multi-sensitizer verdict, all of
which survive deduplication; `_calculate_overall_severity` then has `max`
compare plain-`Enum` `ConflictSeverity` members, which raises `TypeError`;
`analyze_products` has no boundary handler, so the exception propagates
instead of the fallback report the spec requires. -/
theorem analyze_products_raises_on_any_conflict :
    Cur.analyze_products CurEx.demoDb ["Product A", "Product B"] none =
      .error "TypeError: not supported between instances of ConflictSeverity" := rfl

/-- Every verdict emitted by the pH block names an actual base ingredient in
`ingredient2`, so it is never the multiple-sensitizer tag. -/
theorem phPairConflicts_ingredient2_ne_ms (ingredients : List Cur.Ingredient) :
    ∀ c ∈ Cur.phPairConflicts ingredients, c.ingredient2 ≠ "Multiple Sensitizers" := by
  intro c hc
  unfold Cur.phPairConflicts at hc
  dsimp only at hc
  split at hc
  · simp only [List.mem_flatten, List.mem_map] at hc
    obtain ⟨l, ⟨i1, _, rfl⟩, hcl⟩ := hc
    simp only [List.mem_filterMap] at hcl
    obtain ⟨i2, _, hsome⟩ := hcl
    by_cases hcond : (Cur.ph_sensitive_acids.contains (Py.lower i1.ingredient_name) &&
        Cur.ph_sensitive_bases.contains (Py.lower i2.ingredient_name)) = true
    · rw [if_pos hcond] at hsome
      obtain ⟨rfl⟩ := Option.some.inj hsome
      simp only [Bool.and_eq_true] at hcond
      intro habs
      have h2 : (Cur.mkPhConflict i1 i2).ingredient2 = i2.ingredient_name := rfl
      rw [h2] at habs
      rw [habs] at hcond
      exact absurd hcond.2 (by decide)
    · rw [if_neg hcond] at hsome
      exact absurd hsome (by simp)
  · simp at hc

/-- C6: whenever three or more input ingredient names match the sensitizer set,
the heuristic detector emits exactly one "Multiple Sensitizers" verdict for the
whole analysis; it has severity high, and its description names every matched
sensitizer ingredient. -/
theorem heuristic_multi_sensitizer_single_verdict
    (ingredients : List Cur.Ingredient)
    (h3 : 3 ≤ (Cur.sensitizer_names ingredients).length) :
    ∃ v, (Cur.check_heuristic_conflicts ingredients).filter
        (fun c => c.ingredient2 == "Multiple Sensitizers") = [v] ∧
      v.severity = Cur.ConflictSeverity.high ∧
      v.description = "High risk of irritation from multiple sensitizing ingredients: " ++
        String.intercalate ", " (Cur.sensitizer_names ingredients) ∧
      v.ingredient1 = (Cur.sensitizer_names ingredients).headD "" := by
  refine ⟨Cur.mkMultiSensitizerConflict (Cur.sensitizer_names ingredients), ?_, rfl, rfl, rfl⟩
  unfold Cur.check_heuristic_conflicts
  rw [if_pos h3, List.filter_append]
  have h1 : (Cur.phPairConflicts ingredients).filter
      (fun c => c.ingredient2 == "Multiple Sensitizers") = [] := by
    rw [List.filter_eq_nil_iff]
    intro c hc
    simpa using phPairConflicts_ingredient2_ne_ms ingredients c hc
  rw [h1]
  rfl

namespace CurEx

/-- Three ingredients that all belong to the sensitizer set. -/
def msIngredients : List Cur.Ingredient :=
  [⟨1, "Retinol"⟩, ⟨2, "Glycolic Acid"⟩, ⟨3, "Salicylic Acid"⟩]

end CurEx

/-- Witness for C6 at the concrete Retinol / Glycolic Acid / Salicylic Acid
ingredient set from the spec's own example. -/
theorem heuristic_multi_sensitizer_single_verdict_witness :
    3 ≤ (Cur.sensitizer_names CurEx.msIngredients).length ∧
    ∃ v, (Cur.check_heuristic_conflicts CurEx.msIngredients).filter
        (fun c => c.ingredient2 == "Multiple Sensitizers") = [v] ∧
      v.severity = Cur.ConflictSeverity.high ∧
      v.description = "High risk of irritation from multiple sensitizing ingredients: " ++
        String.intercalate ", " (Cur.sensitizer_names CurEx.msIngredients) ∧
      v.ingredient1 = (Cur.sensitizer_names CurEx.msIngredients).headD "" :=
  ⟨by decide, heuristic_multi_sensitizer_single_verdict CurEx.msIngredients (by decide)⟩

namespace V0

/-- The ver.0 `ConflictSeverity` enum. Each member's Python value is the pair
`(score, db_value)`; member names coincide with the `db_value` strings. -/
inductive ConflictSeverity
  | low | medium | high | critical
deriving DecidableEq

/-- The numeric `score` attached to each ver.0 severity member. -/
def ConflictSeverity.score : ConflictSeverity → Nat
  | .low => 1
  | .medium => 2
  | .high => 3
  | .critical => 4

/-- The `db_value` string of each member, equal to the member's `.name`. -/
def ConflictSeverity.db_value : ConflictSeverity → String
  | .low => "LOW"
  | .medium => "MEDIUM"
  | .high => "HIGH"
  | .critical => "CRITICAL"

/-- Python `list(ConflictSeverity)`: the members in declaration order. -/
def sevList : List ConflictSeverity := [.low, .medium, .high, .critical]

/-- Python `ConflictSeverity(score, name)`: member lookup by the full value
tuple, as an extra positional argument forms the value `(score, name)`. The
adjustment code in `_combine_conflict_results` relies on this resolving to the
member with the shifted score. -/
def severityOfPair (score : Nat) (name : String) : Option ConflictSeverity :=
  sevList.find? fun s => s.score == score && s.db_value == name

/-- Python `ConflictSeverity[name]`: member lookup by name (used by the
database detector); `none` models the `KeyError` its enclosing try/except
swallows. -/
def severityByName (name : String) : Option ConflictSeverity :=
  sevList.find? fun s => s.db_value == name

/-- One detector's result dict. The db detector's unused `scientific_basis`
entry is not consumed by `_combine_conflict_results` and is omitted; a missing
`sources` key is the empty list (only ever `extend`ed); a missing
`time_separation_hours` key is `none`. -/
structure DetResult where
  severity : ConflictSeverity
  description : String
  confidence : ℚ
  source : String
  time_separation_hours : Option Nat := none
  sources : List String := []
deriving DecidableEq

/-- The `weights` dict of `_combine_conflict_results` together with its
`.get(source, 0.1)` default. -/
def weights (source : String) : ℚ :=
  if source = "database" then 2/5
  else if source = "rag_system" then 2/5
  else if source = "heuristic" then 1/5
  else 1/10

/-- The `recommendations` dict built by `_generate_conflict_recommendations`
(the `alternatives` entry is always left empty by the source). -/
structure Recommendations where
  action : String
  separation_time : Option Nat
  alternatives : List String := []
  precautions : List String
deriving DecidableEq

/-- The detector-provided separation hours kept by
`_generate_conflict_recommendations`: Python's truthiness test drops both a
missing key and an explicit 0. -/
def provided_separation_times (results : List DetResult) : List Nat :=
  results.filterMap fun r =>
    match r.time_separation_hours with
    | some h => if h ≠ 0 then some h else none
    | none => none

/-- The `_generate_conflict_recommendations` method: a severity-banded default
action/separation, overridden by the maximum of any detector-provided hours. -/
def generate_conflict_recommendations (severity : ConflictSeverity)
    (detection_results : List DetResult) : Recommendations :=
  let base : Recommendations :=
    match severity with
    | .critical =>
      { action := "avoid_combination", separation_time := none,
        precautions := ["Do not use these ingredients together"] }
    | .high =>
      { action := "separate_applications", separation_time := some 24,
        precautions := ["Use on alternate days or different times"] }
    | .medium =>
      { action := "time_separation", separation_time := some 12,
        precautions := ["Wait several hours between applications"] }
    | .low =>
      { action := "monitor", separation_time := none,
        precautions := ["Monitor skin for irritation"] }
  match provided_separation_times detection_results with
  | [] => base
  | h :: t => { base with separation_time := some (Py.natMax (h :: t)) }

/-- The `ConflictDetection` dataclass (the `metadata` dict, which no consumer
reads beyond construction, is omitted). -/
structure ConflictDetection where
  ingredient1 : String
  ingredient2 : String
  severity : ConflictSeverity
  description : String
  confidence : ℚ
  sources : List String
  affected_skin_types : List String
  recommendations : Recommendations
deriving DecidableEq

/-- Python `max(results, key=lambda s: s.score)`: the first element with the
maximal key wins ties. -/
def max_by_score (r0 : DetResult) (rs : List DetResult) : DetResult :=
  rs.foldl (fun acc r => if acc.severity.score < r.severity.score then r else acc) r0

/-- The sensitivity adjustment inside `_combine_conflict_results`: `high`
re-looks-up the member one score above (capped below critical), `low` one score
below (floored above low). The `getD` default is dead code: the pair lookup
always hits a member, as `sensitivity_adjust_bump` below proves. -/
def adjust_severity (sensitivity_level : String) (final_severity : ConflictSeverity) :
    ConflictSeverity :=
  if sensitivity_level = "high" then
    if final_severity.score < ConflictSeverity.critical.score then
      (severityOfPair (final_severity.score + 1)
        ((sevList.getD final_severity.score .low).db_value)).getD final_severity
    else final_severity
  else if sensitivity_level = "low" then
    if ConflictSeverity.low.score < final_severity.score then
      (severityOfPair (final_severity.score - 1)
        ((sevList.getD (final_severity.score - 2) .low).db_value)).getD final_severity
    else final_severity
  else final_severity

/-- The `_combine_conflict_results` method. `list(set(sources))` has
nondeterministic order in Python; it is modelled order-preservingly with
`eraseDups`. -/
def combine_conflict_results (ingredient1 ingredient2 : String)
    (db_result rag_result heuristic_result : Option DetResult)
    (skin_type : Option String) (sensitivity_level : String) :
    Option ConflictDetection :=
  match [db_result, rag_result, heuristic_result].filterMap id with
  | [] => none
  | r0 :: rs =>
    let results := r0 :: rs
    let final_severity := adjust_severity sensitivity_level (max_by_score r0 rs).severity
    let final_description := String.intercalate "; " (results.map (·.description))
    let total_weight := (results.map fun r => weights r.source).sum
    let weighted_confidence :=
      (results.map fun r => r.confidence * weights r.source).sum / total_weight
    let sources := ((results.map fun r => r.sources ++ [r.source]).flatten).eraseDups
    some { ingredient1 := ingredient1, ingredient2 := ingredient2,
           severity := final_severity, description := final_description,
           confidence := weighted_confidence, sources := sources,
           affected_skin_types :=
             match skin_type with
             | some st => [st]
             | none => [],
           recommendations :=
             generate_conflict_recommendations final_severity results }

/-- The `_calculate_overall_risk` method: severity- and confidence-weighted
terms, averaged over the conflicts and capped at 1. -/
def calculate_overall_risk (conflicts : List ConflictDetection) : ℚ :=
  if conflicts.isEmpty then 0
  else
    let risk_score :=
      (conflicts.map fun c => ((c.severity.score : ℚ) / 4) * c.confidence).sum
    min (risk_score / conflicts.length) 1

end V0

/-- The high-sensitivity branch bumps exactly one score step, capped at 4: the
`(score, name)` member lookup resolves to the next member. -/
theorem adjust_severity_high (s : V0.ConflictSeverity) :
    (V0.adjust_severity "high" s).score = min (s.score + 1) 4 := by
  cases s <;> rfl

/-- The low-sensitivity branch drops exactly one score step, floored at 1. -/
theorem adjust_severity_low (s : V0.ConflictSeverity) :
    (V0.adjust_severity "low" s).score = max (s.score - 1) 1 := by
  cases s <;> rfl

/-- At the default "moderate" sensitivity no adjustment happens. -/
theorem adjust_severity_moderate (s : V0.ConflictSeverity) :
    V0.adjust_severity "moderate" s = s := rfl

/-- Every ver.0 severity score lies in 1..4. -/
theorem v0_score_bounds (s : V0.ConflictSeverity) : 1 ≤ s.score ∧ s.score ≤ 4 := by
  cases s <;> exact ⟨by decide, by decide⟩

/-- C4: relative to the pre-adjustment (moderate) merged severity, sensitivity
"high" yields exactly one ordinal step more (capped at critical = 4),
sensitivity "low" exactly one step less (floored at low = 1), and every merged
verdict's severity stays inside the four-member scale. -/
theorem sensitivity_adjustment_one_step (i1 i2 : String)
    (db rag heur : Option V0.DetResult) (st : Option String)
    (r0 : V0.DetResult) (rs : List V0.DetResult)
    (h : [db, rag, heur].filterMap id = r0 :: rs) :
    (V0.combine_conflict_results i1 i2 db rag heur st "moderate").map
        (fun v => v.severity) = some (V0.max_by_score r0 rs).severity ∧
    (V0.combine_conflict_results i1 i2 db rag heur st "high").map
        (fun v => v.severity.score) =
      some (min ((V0.max_by_score r0 rs).severity.score + 1) 4) ∧
    (V0.combine_conflict_results i1 i2 db rag heur st "low").map
        (fun v => v.severity.score) =
      some (max ((V0.max_by_score r0 rs).severity.score - 1) 1) ∧
    ∀ sens v, V0.combine_conflict_results i1 i2 db rag heur st sens = some v →
      1 ≤ v.severity.score ∧ v.severity.score ≤ 4 := by
  refine ⟨?_, ?_, ?_, ?_⟩
  · simp only [V0.combine_conflict_results, h, Option.map_some']
    exact congrArg some (adjust_severity_moderate _)
  · simp only [V0.combine_conflict_results, h, Option.map_some']
    exact congrArg some (adjust_severity_high _)
  · simp only [V0.combine_conflict_results, h, Option.map_some']
    exact congrArg some (adjust_severity_low _)
  · intro sens v _
    exact v0_score_bounds v.severity

namespace V0Ex

/-- A lone database detector result of severity medium. -/
def dbOnly : V0.DetResult :=
  { severity := .medium, description := "stored rule", confidence := 9/10,
    source := "database" }

end V0Ex

/-- Witness for C4 with only the database detector firing at severity medium. -/
theorem sensitivity_adjustment_one_step_witness :
    ([some V0Ex.dbOnly, none, none].filterMap id = [V0Ex.dbOnly]) ∧
    ((V0.combine_conflict_results "retinol" "vitamin c" (some V0Ex.dbOnly) none none
        none "moderate").map (fun v => v.severity) =
      some (V0.max_by_score V0Ex.dbOnly []).severity ∧
    (V0.combine_conflict_results "retinol" "vitamin c" (some V0Ex.dbOnly) none none
        none "high").map (fun v => v.severity.score) =
      some (min ((V0.max_by_score V0Ex.dbOnly []).severity.score + 1) 4) ∧
    (V0.combine_conflict_results "retinol" "vitamin c" (some V0Ex.dbOnly) none none
        none "low").map (fun v => v.severity.score) =
      some (max ((V0.max_by_score V0Ex.dbOnly []).severity.score - 1) 1) ∧
    ∀ sens v, V0.combine_conflict_results "retinol" "vitamin c" (some V0Ex.dbOnly)
        none none none sens = some v →
      1 ≤ v.severity.score ∧ v.severity.score ≤ 4) :=
  ⟨rfl, sensitivity_adjustment_one_step "retinol" "vitamin c" (some V0Ex.dbOnly)
    none none none V0Ex.dbOnly [] rfl⟩

/-- A list of rationals that are all at most 1 sums to at most the length. -/
theorem listSum_le_length (l : List ℚ) (h : ∀ x ∈ l, x ≤ 1) :
    l.sum ≤ (l.length : ℚ) := by
  induction l with
  | nil => simp
  | cons a t ih =>
    have ha := h a (by simp)
    have ht := ih fun x hx => h x (by simp [hx])
    simp only [List.sum_cons, List.length_cons]
    push_cast
    linarith

/-- A list of nonnegative rationals has a nonnegative sum. -/
theorem listSum_nonneg (l : List ℚ) (h : ∀ x ∈ l, 0 ≤ x) : 0 ≤ l.sum := by
  induction l with
  | nil => simp
  | cons a t ih =>
    have ha := h a (by simp)
    have ht := ih fun x hx => h x (by simp [hx])
    simp only [List.sum_cons]
    linarith

/-- C5: when every verdict's confidence lies in [0,1] (as every detector path
guarantees), the overall risk score is exactly the average of
`(severity_score/4) * confidence` over the verdicts — the `min … 1` cap never
binds — it lies in [0,1], and it is exactly 0 for the empty verdict list. -/
theorem overall_risk_is_plain_average (conflicts : List V0.ConflictDetection)
    (hconf : ∀ c ∈ conflicts, 0 ≤ c.confidence ∧ c.confidence ≤ 1) :
    V0.calculate_overall_risk conflicts =
      (conflicts.map fun c => ((c.severity.score : ℚ) / 4) * c.confidence).sum /
        (conflicts.length : ℚ) ∧
    0 ≤ V0.calculate_overall_risk conflicts ∧
    V0.calculate_overall_risk conflicts ≤ 1 ∧
    (conflicts = [] → V0.calculate_overall_risk conflicts = 0) := by
  by_cases hemp : conflicts = []
  · subst hemp
    refine ⟨by simp [V0.calculate_overall_risk], le_refl 0, zero_le_one, fun _ => rfl⟩
  · have hterm : ∀ x ∈ conflicts.map (fun c => ((c.severity.score : ℚ) / 4) * c.confidence),
        0 ≤ x ∧ x ≤ 1 := by
      intro x hx
      rw [List.mem_map] at hx
      obtain ⟨c, hc, rfl⟩ := hx
      have hs4 : ((c.severity.score : ℚ) / 4) ≤ 1 := by
        rw [div_le_one (by norm_num)]
        exact_mod_cast (v0_score_bounds c.severity).2
      have hs0 : (0 : ℚ) ≤ (c.severity.score : ℚ) / 4 :=
        div_nonneg (Nat.cast_nonneg _) (by norm_num)
      exact ⟨mul_nonneg hs0 (hconf c hc).1,
        mul_le_one₀ hs4 (hconf c hc).1 (hconf c hc).2⟩
    have hsum_le : (conflicts.map fun c => ((c.severity.score : ℚ) / 4) * c.confidence).sum ≤
        (conflicts.length : ℚ) := by
      have := listSum_le_length _ (fun x hx => (hterm x hx).2)
      simpa using this
    have hsum_nonneg :
        0 ≤ (conflicts.map fun c => ((c.severity.score : ℚ) / 4) * c.confidence).sum :=
      listSum_nonneg _ fun x hx => (hterm x hx).1
    have hlen : (0 : ℚ) < (conflicts.length : ℚ) := by
      have : 0 < conflicts.length := List.length_pos.mpr hemp
      exact_mod_cast this
    have havg_le : (conflicts.map fun c => ((c.severity.score : ℚ) / 4) * c.confidence).sum /
        (conflicts.length : ℚ) ≤ 1 := by
      rw [div_le_one hlen]
      simpa using hsum_le
    have havg_nonneg :
        0 ≤ (conflicts.map fun c => ((c.severity.score : ℚ) / 4) * c.confidence).sum /
          (conflicts.length : ℚ) := div_nonneg hsum_nonneg (le_of_lt hlen)
    have hform : V0.calculate_overall_risk conflicts =
        (conflicts.map fun c => ((c.severity.score : ℚ) / 4) * c.confidence).sum /
          (conflicts.length : ℚ) := by
      unfold V0.calculate_overall_risk
      rw [if_neg (by simpa [List.isEmpty_iff] using hemp)]
      exact min_eq_left havg_le
    exact ⟨hform, hform ▸ havg_nonneg, hform ▸ havg_le, fun habs => absurd habs hemp⟩

namespace V0Ex

/-- A single merged verdict with confidence exactly 1. -/
def demoDetection : V0.ConflictDetection :=
  { ingredient1 := "retinol", ingredient2 := "vitamin c", severity := .medium,
    description := "pH incompatibility and potential irritation", confidence := 1,
    sources := ["heuristic"], affected_skin_types := [],
    recommendations :=
      { action := "time_separation", separation_time := some 12,
        precautions := ["Wait several hours between applications"] } }

end V0Ex

/-- Witness for C5 on the one-verdict list with confidence 1. -/
theorem overall_risk_is_plain_average_witness :
    (∀ c ∈ [V0Ex.demoDetection], 0 ≤ c.confidence ∧ c.confidence ≤ 1) ∧
    (V0.calculate_overall_risk [V0Ex.demoDetection] =
      ([V0Ex.demoDetection].map fun c =>
        ((c.severity.score : ℚ) / 4) * c.confidence).sum /
        (([V0Ex.demoDetection] : List V0.ConflictDetection).length : ℚ) ∧
    0 ≤ V0.calculate_overall_risk [V0Ex.demoDetection] ∧
    V0.calculate_overall_risk [V0Ex.demoDetection] ≤ 1 ∧
    ([V0Ex.demoDetection] = ([] : List V0.ConflictDetection) →
      V0.calculate_overall_risk [V0Ex.demoDetection] = 0)) := by
  have hconf : ∀ c ∈ [V0Ex.demoDetection], 0 ≤ c.confidence ∧ c.confidence ≤ 1 := by
    intro c hc
    rw [List.mem_singleton] at hc
    subst hc
    exact ⟨zero_le_one, le_refl 1⟩
  exact ⟨hconf, overall_risk_is_plain_average [V0Ex.demoDetection] hconf⟩

/-- Python `max` over a nonempty list folds from the head. -/
theorem natMax_cons (a : Nat) (l : List Nat) :
    Py.natMax (a :: l) = l.foldl Nat.max a := by
  simp [Py.natMax, Nat.zero_max]

/-- The score of the first-maximal detector result is the maximum score. -/
theorem max_by_score_foldl (rs : List V0.DetResult) (r0 : V0.DetResult) :
    (V0.max_by_score r0 rs).severity.score =
      rs.foldl (fun a r => Nat.max a r.severity.score) r0.severity.score := by
  induction rs generalizing r0 with
  | nil => rfl
  | cons r t ih =>
    have hsc : (if r0.severity.score < r.severity.score then r else r0).severity.score
        = Nat.max r0.severity.score r.severity.score := by
      split
      · exact (Nat.max_eq_right (le_of_lt (by assumption))).symm
      · exact (Nat.max_eq_left (Nat.le_of_not_lt (by assumption))).symm
    show (V0.max_by_score
      (if r0.severity.score < r.severity.score then r else r0) t).severity.score = _
    rw [ih, hsc]
    simp [List.foldl_cons]

/-- `max_by_score` realizes `max(...)` over the contributing severity scores. -/
theorem max_by_score_is_natMax (r0 : V0.DetResult) (rs : List V0.DetResult) :
    (V0.max_by_score r0 rs).severity.score =
      Py.natMax ((r0 :: rs).map fun r => r.severity.score) := by
  rw [max_by_score_foldl, List.map_cons, natMax_cons, List.foldl_map]

namespace SpecMerge

/-- Following the spec's words for the merge-rule confidence — "weights: rule
0.4, retrieval 0.4, heuristic 0.2, renormalized over contributing sources" —
where every signal of the heuristic detector counts as heuristic. This is the
claimed formula, to be compared with the implementation's `V0.weights`. -/
def specDetectorWeight (source : String) : ℚ :=
  if source = "database" then 2/5
  else if source = "rag_system" then 2/5
  else 1/5

/-- The spec-claimed renormalized weighted average of contributor confidences. -/
def specWeightedConfidence (results : List V0.DetResult) : ℚ :=
  (results.map fun r => r.confidence * specDetectorWeight r.source).sum /
    (results.map fun r => specDetectorWeight r.source).sum

end SpecMerge

namespace V0Ex

/-- The pH-heuristic detector signal, whose `source` tag is `heuristic_ph`,
not `heuristic`. -/
def phHeur : V0.DetResult :=
  { severity := .medium,
    description := "pH incompatibility between acid and base ingredients",
    confidence := 3/5, source := "heuristic_ph" }

end V0Ex

/-- C2 counterexample: with the database detector (0.9, weight 0.4) and the
pH-heuristic detector (0.6, source tag `heuristic_ph`) both firing, the code's
`weights.get` falls back to the 0.1 default for `heuristic_ph` and yields
confidence 0.84, while the spec's 0.4/0.4/0.2 weighting yields 0.8. -/
theorem combine_confidence_deviates_from_spec_weights :
    (V0.combine_conflict_results "salicylic acid" "sodium bicarbonate"
        (some V0Ex.dbOnly) none (some V0Ex.phHeur) none "moderate").map
      (fun v => v.confidence) = some (21/25) ∧
    SpecMerge.specWeightedConfidence [V0Ex.dbOnly, V0Ex.phHeur] = 4/5 ∧
    (21/25 : ℚ) ≠ 4/5 := by
  refine ⟨?_, ?_, by norm_num⟩
  · simp only [V0.combine_conflict_results, List.filterMap_cons, List.filterMap_nil, id,
      Option.map_some', V0.weights, V0Ex.dbOnly, V0Ex.phHeur, List.map_cons, List.map_nil,
      List.sum_cons, List.sum_nil, String.reduceEq, if_false]
    norm_num
  · simp only [SpecMerge.specWeightedConfidence, SpecMerge.specDetectorWeight,
      V0Ex.dbOnly, V0Ex.phHeur, List.map_cons, List.map_nil, List.sum_cons, List.sum_nil,
      String.reduceEq, if_false]
    norm_num

/-- C2 (amended): at default sensitivity, when two or more detectors fire, the
merged verdict's severity score is the maximum contributor score; its
confidence is the contributor confidences averaged with the implementation's
source weights (database 0.4, rag_system 0.4, heuristic 0.2, any other source
label — including `heuristic_ph` and `heuristic_actives` — 0.1), renormalized
over the contributing sources; its description joins the contributor
descriptions with "; "; and when any detector provides nonzero separation
hours the recommended separation time is their maximum. -/
theorem combine_merge_rule (i1 i2 : String)
    (db rag heur : Option V0.DetResult) (st : Option String)
    (r0 : V0.DetResult) (rs : List V0.DetResult)
    (h : [db, rag, heur].filterMap id = r0 :: rs)
    (_h2 : 2 ≤ (r0 :: rs).length) :
    ∃ v, V0.combine_conflict_results i1 i2 db rag heur st "moderate" = some v ∧
      v.severity.score = Py.natMax ((r0 :: rs).map fun r => r.severity.score) ∧
      v.confidence = ((r0 :: rs).map fun r => r.confidence * V0.weights r.source).sum /
        ((r0 :: rs).map fun r => V0.weights r.source).sum ∧
      v.description = String.intercalate "; " ((r0 :: rs).map fun r => r.description) ∧
      (V0.provided_separation_times (r0 :: rs) ≠ [] →
        v.recommendations.separation_time =
          some (Py.natMax (V0.provided_separation_times (r0 :: rs)))) := by
  simp only [V0.combine_conflict_results, h]
  refine ⟨_, rfl, ?_, rfl, rfl, ?_⟩
  · show (V0.adjust_severity "moderate" (V0.max_by_score r0 rs).severity).score = _
    rw [adjust_severity_moderate]
    exact max_by_score_is_natMax r0 rs
  · intro hne
    show (V0.generate_conflict_recommendations
      (V0.adjust_severity "moderate" (V0.max_by_score r0 rs).severity)
      (r0 :: rs)).separation_time = _
    unfold V0.generate_conflict_recommendations
    rcases hps : V0.provided_separation_times (r0 :: rs) with _ | ⟨a, t⟩
    · exact absurd hps hne
    · simp only [hps]

/-- Witness for C2 with the database and pH-heuristic detectors both firing. -/
theorem combine_merge_rule_witness :
    ([some V0Ex.dbOnly, none, some V0Ex.phHeur].filterMap id =
      [V0Ex.dbOnly, V0Ex.phHeur]) ∧
    2 ≤ ([V0Ex.dbOnly, V0Ex.phHeur] : List V0.DetResult).length ∧
    ∃ v, V0.combine_conflict_results "retinol" "vitamin c" (some V0Ex.dbOnly) none
        (some V0Ex.phHeur) none "moderate" = some v ∧
      v.severity.score =
        Py.natMax (([V0Ex.dbOnly, V0Ex.phHeur]).map fun r => r.severity.score) ∧
      v.confidence =
        (([V0Ex.dbOnly, V0Ex.phHeur]).map fun r => r.confidence * V0.weights r.source).sum /
        (([V0Ex.dbOnly, V0Ex.phHeur]).map fun r => V0.weights r.source).sum ∧
      v.description =
        String.intercalate "; " (([V0Ex.dbOnly, V0Ex.phHeur]).map fun r => r.description) ∧
      (V0.provided_separation_times [V0Ex.dbOnly, V0Ex.phHeur] ≠ [] →
        v.recommendations.separation_time =
          some (Py.natMax (V0.provided_separation_times [V0Ex.dbOnly, V0Ex.phHeur]))) :=
  ⟨rfl, by decide,
    combine_merge_rule "retinol" "vitamin c" (some V0Ex.dbOnly) none (some V0Ex.phHeur)
      none V0Ex.dbOnly [V0Ex.phHeur] rfl (by decide)⟩

namespace V0

/-- The `ph_conflict_patterns['acids']` list. -/
def ph_pattern_acids : List String :=
  ["salicylic acid", "glycolic acid", "lactic acid", "mandelic acid", "azelaic acid"]

/-- The `ph_conflict_patterns['bases']` list. -/
def ph_pattern_bases : List String := ["sodium bicarbonate", "calcium carbonate"]

/-- The `ph_conflict_patterns['vitamin_c']` list (declared but not consulted by
`_check_heuristic_patterns`). -/
def ph_pattern_vitamin_c : List String :=
  ["l-ascorbic acid", "magnesium ascorbyl phosphate", "ascorbyl glucoside"]

/-- The `ph_conflict_patterns['retinoids']` list. -/
def ph_pattern_retinoids : List String :=
  ["retinol", "retinyl palmitate", "adapalene", "tretinoin"]

/-- One entry of the `known_conflicts` dict. -/
structure KnownConflict where
  pattern1 : String
  pattern2 : String
  severity : ConflictSeverity
  reason : String
  separation_hours : Nat

/-- The `known_conflicts` dict in insertion order. -/
def known_conflicts : List KnownConflict :=
  [⟨"retinol", "vitamin c", .medium, "pH incompatibility and potential irritation", 12⟩,
   ⟨"retinol", "aha", .high, "Excessive exfoliation and irritation risk", 24⟩,
   ⟨"vitamin c", "niacinamide", .low, "Potential conversion to nicotinic acid (debated)", 4⟩]

/-- The `_check_heuristic_patterns` method: known literal pairs first, then the
acid/base pH test, then the multiple-actives test, all by substring match. -/
def check_heuristic_patterns (ingredient1 ingredient2 : String) : Option DetResult :=
  let ing1_lower := Py.lower ingredient1
  let ing2_lower := Py.lower ingredient2
  match known_conflicts.findSome? (fun kc =>
    if (Py.strIn kc.pattern1 ing1_lower && Py.strIn kc.pattern2 ing2_lower) ||
        (Py.strIn kc.pattern2 ing1_lower && Py.strIn kc.pattern1 ing2_lower) then
      some { severity := kc.severity, description := kc.reason,
             time_separation_hours := some kc.separation_hours,
             confidence := 7/10, source := "heuristic" }
    else none) with
  | some r => some r
  | none =>
    let is_acid1 := ph_pattern_acids.any fun a => Py.strIn a ing1_lower
    let is_acid2 := ph_pattern_acids.any fun a => Py.strIn a ing2_lower
    let is_base1 := ph_pattern_bases.any fun b => Py.strIn b ing1_lower
    let is_base2 := ph_pattern_bases.any fun b => Py.strIn b ing2_lower
    if (is_acid1 && is_base2) || (is_base1 && is_acid2) then
      some { severity := .medium,
             description := "pH incompatibility between acid and base ingredients",
             confidence := 3/5, source := "heuristic_ph" }
    else
      let actives := ph_pattern_acids ++ ph_pattern_retinoids
      let is_active1 := actives.any fun a => Py.strIn a ing1_lower
      let is_active2 := actives.any fun a => Py.strIn a ing2_lower
      if is_active1 && is_active2 then
        some { severity := .low,
               description := "Multiple active ingredients may increase irritation risk",
               confidence := 1/2, source := "heuristic_actives" }
      else none

/-- The RAG system's `QueryResponse`. -/
structure QueryResponse where
  response : String
  confidence : ℚ
  sources : List String

/-- The rule-store row consumed by `_check_database_rules`; the oracle subsumes
the two `ilike` ingredient resolutions and the `is_active` rule query, the
skin-type restriction stays engine-side as in the source. -/
structure RuleRow where
  severity_name : String
  description : String
  time_separation_hours : Option Nat
  affected_skin_types : Option (List String)

/-- The two external collaborators of the ver.0 analyzer; an `Except.error`
models a raised exception. -/
structure Oracle where
  dbLookup : String → String → Except String (Option RuleRow)
  ragQuery : String → String → Option String → Except String QueryResponse

/-- The `_check_database_rules` method: its try/except degrades any raise
(including the `ConflictSeverity[...]` `KeyError` on a bad severity name) to
"no rule signal". -/
def check_database_rules (oracle : Oracle) (ingredient1 ingredient2 : String)
    (skin_type : Option String) : Option DetResult :=
  match oracle.dbLookup ingredient1 ingredient2 with
  | .error _ => none
  | .ok none => none
  | .ok (some row) =>
    let blocked : Bool :=
      match skin_type, row.affected_skin_types with
      | some st, some sts => !(sts.contains st)
      | _, _ => false
    if blocked then none
    else
      match severityByName row.severity_name with
      | some sev =>
        some { severity := sev, description := row.description,
               time_separation_hours := row.time_separation_hours,
               confidence := 9/10, source := "database" }
      | none => none

/-- The conflict-indicating keywords scanned by `_check_rag_insights`. -/
def conflict_keywords : List String :=
  ["avoid", "conflict", "contraindicated", "incompatible",
   "separate", "not recommended", "irritation", "cancel out"]

/-- The `_check_rag_insights` method: reject low confidence, scan for conflict
keywords, infer severity from intensity keywords, truncate the description. -/
def check_rag_insights (oracle : Oracle) (threshold : ℚ)
    (ingredient1 ingredient2 : String) (skin_type : Option String) :
    Option DetResult :=
  match oracle.ragQuery ingredient1 ingredient2 skin_type with
  | .error _ => none
  | .ok response =>
    if response.confidence < threshold then none
    else
      let response_text := Py.lower response.response
      if conflict_keywords.any (fun k => Py.strIn k response_text) then
        let severity :=
          if ["severe", "critical", "dangerous"].any (fun w => Py.strIn w response_text)
          then ConflictSeverity.critical
          else if ["high", "strong", "significant"].any (fun w => Py.strIn w response_text)
          then ConflictSeverity.high
          else if ["mild", "minor", "slight"].any (fun w => Py.strIn w response_text)
          then ConflictSeverity.low
          else ConflictSeverity.medium
        some { severity := severity,
               description :=
                 if 200 < response.response.length then
                   String.mk (response.response.data.take 200) ++ "..."
                 else response.response,
               confidence := response.confidence,
               sources := response.sources, source := "rag_system" }
      else none

/-- The `_analyze_ingredient_pair` method: run the three detectors (the RAG one
only when a RAG system is configured) and combine. Its try/except is dead in
this embedding because each detector already recovers its own failures. -/
def analyze_ingredient_pair (oracle : Oracle) (ragConfigured : Bool) (threshold : ℚ)
    (ingredient1 ingredient2 : String) (skin_type : Option String)
    (sensitivity_level : String) : Option ConflictDetection :=
  let db_conflict := check_database_rules oracle ingredient1 ingredient2 skin_type
  let rag_conflict :=
    if ragConfigured then check_rag_insights oracle threshold ingredient1 ingredient2 skin_type
    else none
  let heuristic_conflict := check_heuristic_patterns ingredient1 ingredient2
  combine_conflict_results ingredient1 ingredient2 db_conflict rag_conflict
    heuristic_conflict skin_type sensitivity_level

/-- A product dict as consumed by the ver.0 analyzer and optimizer: a missing
`ingredients` key is the empty list, a missing `category` key is `none`. -/
structure Product where
  name : String
  category : Option String := none
  ingredients : List String := []
deriving DecidableEq

/-- The `_extract_ingredients_from_products` method: lowercase, strip, and
deduplicate (the Python set is modelled order-preservingly). -/
def extract_ingredients_from_products (products : List Product) : List String :=
  ((products.map fun p => p.ingredients.map fun ing => Py.strip (Py.lower ing)).flatten).eraseDups

/-- The `RoutineAnalysis` dataclass (`product_specific_advice` is a dict keyed
by product name, modelled as an ordered association list). -/
structure RoutineAnalysis where
  conflicts : List ConflictDetection
  overall_risk_score : ℚ
  safety_assessment : String
  general_recommendations : List String
  product_specific_advice : List (String × List String)

/-- The `_generate_safety_assessment` method (its `conflicts` argument is never
read by the source and is dropped). -/
def generate_safety_assessment (risk_score : ℚ) : String :=
  if risk_score = 0 then
    "No significant conflicts detected. Routine appears safe for general use."
  else if risk_score < 3/10 then
    "Low risk routine with minor considerations. Monitor for any irritation."
  else if risk_score < 3/5 then
    "Moderate risk routine. Follow timing recommendations carefully."
  else if risk_score < 4/5 then
    "High risk routine. Consider modifications or professional consultation."
  else
    "Critical risk detected. Strongly recommend dermatologist consultation before use."

/-- The `_generate_general_recommendations` method. -/
def generate_general_recommendations (conflicts : List ConflictDetection)
    (skin_type : Option String) : List String :=
  (if conflicts.isEmpty then []
   else
    ["Patch test new products before full application",
     "Introduce one product at a time to monitor reactions"] ++
    (if (conflicts.filter fun c => c.severity = .critical).isEmpty then []
     else ["Avoid using conflicting ingredients together completely"]) ++
    (if (conflicts.filter fun c => c.severity = .high).isEmpty then []
     else ["Use conflicting products on alternate days"]) ++
    (if (conflicts.filter fun c => c.severity = .medium).isEmpty then []
     else ["Allow adequate time between conflicting product applications"])) ++
  (if skin_type = some "sensitive" then
    ["Start with lower concentrations and less frequent use",
     "Consider using products every other day initially"]
   else []) ++
  ["Consult a dermatologist for personalized advice"]

/-- Python `max(severities, key=lambda s: s.score)` (first maximum wins). -/
def sevMaxMember (s0 : ConflictSeverity) (ss : List ConflictSeverity) : ConflictSeverity :=
  ss.foldl (fun acc s => if acc.score < s.score then s else acc) s0

/-- The `_generate_product_specific_advice` method. -/
def generate_product_specific_advice (products : List Product)
    (conflicts : List ConflictDetection) : List (String × List String) :=
  products.map fun product =>
    let product_ingredients := product.ingredients.map Py.lower
    let product_conflicts := conflicts.filter fun c =>
      product_ingredients.contains c.ingredient1 ||
        product_ingredients.contains c.ingredient2
    let advice :=
      match product_conflicts with
      | [] => ["✅ No significant conflicts detected"]
      | c0 :: cs =>
        let max_severity := sevMaxMember c0.severity (cs.map (·.severity))
        (if max_severity = .critical then "⚠️ CRITICAL: Review usage with dermatologist"
         else if max_severity = .high then
           "⚠️ HIGH RISK: Use with caution and timing separation"
         else if max_severity = .medium then "⚠️ MODERATE: Allow time between applications"
         else "ℹ️ Monitor for any adverse reactions") ::
        ((c0 :: cs).filterMap fun c =>
          match c.recommendations.separation_time with
          | some t =>
            if t ≠ 0 then
              some ("Wait " ++ toString t ++ " hours before/after using products with " ++
                c.ingredient1 ++ " or " ++ c.ingredient2)
            else none
          | none => none)
    (product.name, advice)

/-- The `analyze_routine` entry point: the pairwise `i < j` loop over the
extracted ingredient set, followed by the aggregate outputs. Its boundary
try/except returns the manual-review fallback on a raise from malformed input;
over this typed embedding the body is total, so that handler is dead code. -/
def analyze_routine (oracle : Oracle) (ragConfigured : Bool) (threshold : ℚ)
    (products : List Product) (skin_type : Option String)
    (sensitivity_level : String) : RoutineAnalysis :=
  let all_ingredients := extract_ingredients_from_products products
  let conflicts := (Py.upperPairs all_ingredients).filterMap fun p =>
    analyze_ingredient_pair oracle ragConfigured threshold p.1 p.2
      skin_type sensitivity_level
  let risk_score := calculate_overall_risk conflicts
  { conflicts := conflicts,
    overall_risk_score := risk_score,
    safety_assessment := generate_safety_assessment risk_score,
    general_recommendations := generate_general_recommendations conflicts skin_type,
    product_specific_advice := generate_product_specific_advice products conflicts }

end V0

namespace V0

/-- The `RoutineTimeSlot` enum of the ver.0 optimizer. -/
inductive RoutineTimeSlot
  | morning | evening | both
deriving DecidableEq

/-- The `ProductPriority` enum of the ver.0 optimizer. -/
inductive ProductPriority
  | essential | important | beneficial | optional
deriving DecidableEq

/-- The numeric `.value` of each priority member. -/
def ProductPriority.value : ProductPriority → Nat
  | .essential => 1
  | .important => 2
  | .beneficial => 3
  | .optional => 4

/-- The `ProductCategoryEnum` of the ver.0 `models.py`. -/
inductive ProductCategoryEnum
  | cleanser | toner | essence | serum | moisturizer | sunscreen
  | treatment | mask | exfoliant | oil | mist | eye_cream
deriving DecidableEq

/-- Python `list(ProductCategoryEnum)`: the members in declaration order, which
is also the iteration order of any dict keyed by all members. -/
def categoryEnumMembers : List ProductCategoryEnum :=
  [.cleanser, .toner, .essence, .serum, .moisturizer, .sunscreen,
   .treatment, .mask, .exfoliant, .oil, .mist, .eye_cream]

/-- The string `.value` of each category member. -/
def ProductCategoryEnum.value : ProductCategoryEnum → String
  | .cleanser => "cleanser"
  | .toner => "toner"
  | .essence => "essence"
  | .serum => "serum"
  | .moisturizer => "moisturizer"
  | .sunscreen => "sunscreen"
  | .treatment => "treatment"
  | .mask => "mask"
  | .exfoliant => "exfoliant"
  | .oil => "oil"
  | .mist => "mist"
  | .eye_cream => "eye_cream"

/-- Python `ProductCategoryEnum(s)` value lookup; `none` models the
`ValueError` that `_determine_product_category` catches and ignores. -/
def productCategoryOfString (s : String) : Option ProductCategoryEnum :=
  categoryEnumMembers.find? fun c => c.value == s

/-- The `category_order` dict of the ver.0 optimizer. It has no entry for
`both`; `_create_time_routine` is only ever called with morning or evening, so
the `both` arm below is never consulted. -/
def category_order : RoutineTimeSlot → List ProductCategoryEnum
  | .morning =>
    [.cleanser, .toner, .essence, .serum, .treatment, .eye_cream, .moisturizer, .sunscreen]
  | .evening =>
    [.cleanser, .exfoliant, .toner, .essence, .serum, .treatment, .eye_cream,
     .moisturizer, .oil]
  | .both => []

/-- The `wait_times` dict with its `'default': 2` entry. -/
def wait_times (c : ProductCategoryEnum) : Nat :=
  if c = .serum then 5
  else if c = .treatment then 10
  else if c = .exfoliant then 15
  else if c = .sunscreen then 5
  else 2

/-- The `time_preferences` dict in insertion order. -/
def time_preferences : List (String × RoutineTimeSlot) :=
  [("sunscreen", .morning), ("retinol", .evening), ("tretinoin", .evening),
   ("aha", .evening), ("bha", .both), ("vitamin c", .morning)]

/-- The `_determine_product_category` method of the ver.0 optimizer: explicit
category field (when it parses), then name keywords in the source's fixed
order, then the treatment default. -/
def determine_product_category (product : Product) : ProductCategoryEnum :=
  let direct :=
    match product.category with
    | some s => productCategoryOfString (Py.lower s)
    | none => none
  match direct with
  | some c => c
  | none =>
    let name := Py.lower product.name
    if ["cleanser", "cleansing", "wash", "foam"].any (fun w => Py.strIn w name) then .cleanser
    else if ["sunscreen", "spf", "sun protection"].any (fun w => Py.strIn w name) then .sunscreen
    else if ["serum"].any (fun w => Py.strIn w name) then .serum
    else if ["moisturizer", "moisturiser", "cream", "lotion"].any (fun w => Py.strIn w name) then
      .moisturizer
    else if ["toner", "tonic"].any (fun w => Py.strIn w name) then .toner
    else if ["essence"].any (fun w => Py.strIn w name) then .essence
    else if ["eye cream", "eye serum"].any (fun w => Py.strIn w name) then .eye_cream
    else if ["exfoliant", "exfoliating", "peel"].any (fun w => Py.strIn w name) then .exfoliant
    else if ["oil", "facial oil"].any (fun w => Py.strIn w name) then .oil
    else if ["mask"].any (fun w => Py.strIn w name) then .mask
    else if ["treatment", "spot treatment"].any (fun w => Py.strIn w name) then .treatment
    else if ["mist", "spray"].any (fun w => Py.strIn w name) then .mist
    else .treatment

/-- A user profile dict: a missing key is `none` / the empty list. -/
structure UserProfile where
  skin_type : Option String := none
  concerns : List String := []
  sensitivity_level : Option String := none
deriving DecidableEq

/-- The `concern_ingredients` table of `_determine_product_priority`. -/
def concern_ingredients : List (String × List String) :=
  [("acne", ["salicylic acid", "benzoyl peroxide", "niacinamide"]),
   ("aging", ["retinol", "vitamin c", "peptides"]),
   ("dark spots", ["vitamin c", "arbutin", "kojic acid"]),
   ("dryness", ["hyaluronic acid", "ceramides", "squalane"]),
   ("sensitivity", ["niacinamide", "centella asiatica", "allantoin"])]

/-- The `_determine_product_priority` method. -/
def determine_product_priority (product : Product) (user_profile : UserProfile) :
    ProductPriority :=
  let ingredients := product.ingredients.map Py.lower
  let skin_type := user_profile.skin_type.getD "normal"
  let concerns := user_profile.concerns.map Py.lower
  let category := determine_product_category product
  if category = .cleanser ∨ category = .moisturizer ∨ category = .sunscreen then .essential
  else if concerns.any (fun concern =>
      match concern_ingredients.find? fun e => e.1 == concern with
      | some e => e.2.any fun ing => ingredients.contains ing
      | none => false) then .important
  else if skin_type = "oily" ∧
      (["niacinamide", "salicylic acid"].any fun ing => ingredients.contains ing) then
    .beneficial
  else if skin_type = "dry" ∧
      (["hyaluronic acid", "ceramides"].any fun ing => ingredients.contains ing) then
    .beneficial
  else .optional

/-- A product with the priority added by `_categorize_products` (the
`user_notes` entry is always the empty list). -/
structure CategorizedProduct where
  prod : Product
  priority : ProductPriority
deriving DecidableEq

/-- The per-category lists of `_categorize_products`: every product lands in
exactly the category `_determine_product_category` assigns. -/
def categorize_products (products : List Product) (user_profile : UserProfile)
    (c : ProductCategoryEnum) : List CategorizedProduct :=
  (products.filter fun p => determine_product_category p = c).map fun p =>
    ⟨p, determine_product_priority p user_profile⟩

/-- The category-default half of `_determine_optimal_time_slot`, reached when
no `time_preferences` pattern matches and the product carries no (truthy)
user-supplied category string. -/
def slotByEnumCategory (product : Product) : RoutineTimeSlot :=
  let category := determine_product_category product
  if category = .sunscreen then .morning
  else if category = .exfoliant ∨ category = .treatment then
    let joined := String.intercalate " " (product.ingredients.map Py.lower)
    if ["retinol", "aha", "glycolic", "lactic"].any (fun w => Py.strIn w joined) then .evening
    else .morning
  else .morning

/-- The `_determine_optimal_time_slot` method. When the product dict carries a
truthy `category` STRING, `product.get('category') or ...` yields that string,
and the subsequent `==`/`in` comparisons against enum members are all False, so
the method falls through to the morning default. -/
def determine_optimal_time_slot (product : Product) : RoutineTimeSlot :=
  let ingredients := product.ingredients.map Py.lower
  match time_preferences.findSome? (fun tp =>
    if ingredients.any (fun ing => Py.strIn tp.1 ing) then some tp.2 else none) with
  | some slot => slot
  | none =>
    match product.category with
    | some s => if s ≠ "" then .morning else slotByEnumCategory product
    | none => slotByEnumCategory product

/-- A product as it sits in the `_assign_time_slots` output: the `category`
key has been overwritten with the category dict key, and a `time_slot` added. -/
structure AssignedProduct where
  prod : Product
  priority : ProductPriority
  category : ProductCategoryEnum
  time_slot : RoutineTimeSlot
deriving DecidableEq

/-- The loop body of `_assign_time_slots` over the categorized products in
dict-iteration order. The `assigned` dict has keys for morning and evening
only, so a product whose slot is `both` raises `KeyError`. -/
def assignLoop :
    List (ProductCategoryEnum × CategorizedProduct) →
    List AssignedProduct → List AssignedProduct →
    Except String (List AssignedProduct × List AssignedProduct)
  | [], morning, evening => .ok (morning, evening)
  | (c, cp) :: rest, morning, evening =>
    match determine_optimal_time_slot cp.prod with
    | .morning => assignLoop rest (morning ++ [⟨cp.prod, cp.priority, c, .morning⟩]) evening
    | .evening => assignLoop rest morning (evening ++ [⟨cp.prod, cp.priority, c, .evening⟩])
    | .both => .error "KeyError: RoutineTimeSlot.BOTH"

/-- The categorized products in the iteration order of
`categorized_products.items()` (enum declaration order, input order within a
category). -/
def orderedCategorized (products : List Product) (user_profile : UserProfile) :
    List (ProductCategoryEnum × CategorizedProduct) :=
  (categoryEnumMembers.map fun c =>
    (categorize_products products user_profile c).map fun cp => (c, cp)).flatten

/-- The `_assign_time_slots` method. -/
def assign_time_slots (products : List Product) (user_profile : UserProfile) :
    Except String (List AssignedProduct × List AssignedProduct) :=
  assignLoop (orderedCategorized products user_profile) [] []

/-- One `ProductApplication` of the ver.0 optimizer. -/
structure ProductApplication where
  product : AssignedProduct
  time_slot : RoutineTimeSlot
  application_order : Nat
  frequency : String
  wait_time_minutes : Nat
  priority : ProductPriority
  notes : List String
deriving DecidableEq

/-- Stable insertion into a key-sorted list (equal keys keep first-come order),
the behaviour of Python's stable `list.sort` / `sorted`. -/
def insertSortedBy {α : Type} (key : α → Nat) (x : α) : List α → List α
  | [] => [x]
  | y :: ys => if key y ≤ key x then y :: insertSortedBy key x ys else x :: y :: ys

/-- Stable sort by a natural-number key. -/
def stableSortBy {α : Type} (key : α → Nat) (l : List α) : List α :=
  l.foldl (fun acc x => insertSortedBy key x acc) []

/-- The `_determine_frequency` method of the ver.0 optimizer (the assigned
products reaching it always carry the enum category written by
`_assign_time_slots`). -/
def v0_determine_frequency (a : AssignedProduct) (user_profile : UserProfile) : String :=
  let ingredients := a.prod.ingredients.map Py.lower
  let sensitivity := user_profile.sensitivity_level.getD "moderate"
  let joined := String.intercalate " " ingredients
  if ["retinol", "tretinoin", "glycolic acid", "salicylic acid"].any
      (fun w => Py.strIn w joined) then
    if sensitivity = "high" then "2x per week"
    else if sensitivity = "moderate" then "every other day"
    else "daily"
  else if ["aha", "bha"].any (fun w => Py.strIn w joined) then "2-3x per week"
  else if a.category = .mask then "1-2x per week"
  else "daily"

/-- The `_generate_application_notes` method (its `time_slot` argument is
never read by the source). -/
def generate_application_notes (a : AssignedProduct) (user_profile : UserProfile) :
    List String :=
  let ingredients := a.prod.ingredients.map Py.lower
  let joined := String.intercalate " " ingredients
  (if Py.strIn "sunscreen" (Py.lower a.prod.name) then
    ["Apply 15-20 minutes before sun exposure", "Reapply every 2 hours when outdoors"]
   else []) ++
  (if ["retinol", "tretinoin"].any (fun w => Py.strIn w joined) then
    ["Start slowly to build tolerance", "Always use sunscreen during the day"]
   else []) ++
  (if Py.strIn "vitamin c" joined then
    ["Store in cool, dark place", "Use within 6 months of opening"]
   else []) ++
  (if user_profile.sensitivity_level = some "high" then
    ["Patch test before first use", "Reduce frequency if irritation occurs"]
   else [])

/-- The `_create_time_routine` method: regroup the slot's products by the
slot's `category_order`, stably sort each group by priority, then number the
applications 1, 2, 3, … . -/
def create_time_routine (products : List AssignedProduct)
    (time_slot : RoutineTimeSlot) (user_profile : UserProfile) :
    List ProductApplication :=
  let sorted_products :=
    ((category_order time_slot).map fun c =>
      stableSortBy (fun a => a.priority.value) (products.filter fun a => a.category = c)).flatten
  sorted_products.enum.map fun e =>
    { product := e.2, time_slot := time_slot, application_order := e.1 + 1,
      frequency := v0_determine_frequency e.2 user_profile,
      wait_time_minutes := wait_times e.2.category,
      priority := e.2.priority,
      notes := generate_application_notes e.2 user_profile }

/-- The weekly-schedule days in dict order. -/
def weekly_days : List String :=
  ["Monday", "Tuesday", "Wednesday", "Thursday", "Friday", "Saturday", "Sunday"]

/-- The days on which `_generate_weekly_schedule` mentions an application
(`range(0, 7, 2)` hits Monday, Wednesday, Friday, Sunday). -/
def app_days (a : ProductApplication) : List String :=
  if a.frequency = "every other day" then ["Monday", "Wednesday", "Friday", "Sunday"]
  else if a.frequency = "2x per week" then ["Monday", "Thursday"]
  else if a.frequency = "2-3x per week" then ["Monday", "Wednesday", "Friday"]
  else []

/-- The `_generate_weekly_schedule` method. -/
def generate_weekly_schedule (all_applications : List ProductApplication) :
    List (String × List String) :=
  weekly_days.map fun day =>
    (day, (all_applications.filter fun a => (app_days a).contains day).map
      fun a => "Use " ++ a.product.prod.name)

/-- The `_estimate_routine_time` method: one minute per application plus the
wait times of all but the last. -/
def estimate_routine_time (applications : List ProductApplication) : Nat :=
  if applications.isEmpty then 0
  else applications.length * 1 + (applications.dropLast.map (·.wait_time_minutes)).sum

/-- Pairs of consecutive elements, the `sorted_apps[i:i+2]` chunks of
`_create_introduction_timeline`. -/
def chunk2 {α : Type} : List α → List (List α)
  | [] => []
  | [x] => [[x]]
  | x :: y :: rest => [x, y] :: chunk2 rest

/-- The `_create_introduction_timeline` method. -/
def create_introduction_timeline (all_applications : List ProductApplication) :
    List (String × List String) :=
  let sorted_apps := stableSortBy (fun a => a.priority.value) all_applications
  (chunk2 sorted_apps).enum.map fun e =>
    ("Week " ++ toString (e.1 + 1), e.2.map fun a => "Introduce " ++ a.product.prod.name)

/-- The `_generate_general_guidelines` method. -/
def generate_general_guidelines (user_profile : UserProfile) (risk_score : ℚ) :
    List String :=
  ["Always patch test new products before full application",
   "Introduce one new product at a time",
   "Use sunscreen daily, especially when using actives",
   "Listen to your skin - reduce frequency if irritation occurs"] ++
  (if user_profile.sensitivity_level = some "high" then
    ["Start with every other day for new actives",
     "Consider using products on alternate nights"]
   else []) ++
  (if 1/2 < risk_score then
    ["Follow timing recommendations carefully",
     "Consider consulting a dermatologist for personalized advice"]
   else [])

/-- The `_generate_personalization_notes` method. -/
def generate_personalization_notes (user_profile : UserProfile) : List String :=
  let skin_type := user_profile.skin_type.getD "normal"
  let concerns := user_profile.concerns
  (if skin_type = "oily" then
    ["Focus on oil control and pore-minimizing ingredients"]
   else if skin_type = "dry" then
    ["Prioritize hydrating and barrier-repairing ingredients"]
   else if skin_type = "sensitive" then
    ["Choose gentle, fragrance-free formulations"]
   else if skin_type = "combination" then
    ["You may need different products for T-zone vs. cheeks"]
   else []) ++
  (if concerns.contains "acne" then ["Look for non-comedogenic products"] else []) ++
  (if concerns.contains "aging" then
    ["Consistency is key for anti-aging ingredients"] else []) ++
  (if concerns.contains "dark spots" then
    ["Be patient - brightening ingredients take 8-12 weeks to show results"] else [])

/-- The `OptimizedRoutine` dataclass of the ver.0 optimizer. -/
structure OptimizedRoutine where
  morning_routine : List ProductApplication
  evening_routine : List ProductApplication
  weekly_schedule : List (String × List String)
  estimated_time_morning : Nat
  estimated_time_evening : Nat
  introduction_timeline : List (String × List String)
  general_guidelines : List String
  personalization_notes : List String

/-- The `_create_fallback_routine` result. -/
def create_fallback_routine : OptimizedRoutine :=
  { morning_routine := [], evening_routine := [], weekly_schedule := [],
    estimated_time_morning := 0, estimated_time_evening := 0,
    introduction_timeline := [("Week 1", ["Consult skincare professional"])],
    general_guidelines := ["System error - please seek professional advice"],
    personalization_notes := ["Routine optimization failed - manual review needed"] }

/-- The `optimize_routine` entry point of the ver.0 optimizer. The boundary
try/except catches the `KeyError` from `_assign_time_slots` (the only raising
step over this typed embedding; the conflict analyzer never raises) and
returns the fallback routine. -/
def optimize_routine (oracle : Oracle) (ragConfigured : Bool) (threshold : ℚ)
    (products : List Product) (user_profile : UserProfile) : OptimizedRoutine :=
  let conflict_analysis := analyze_routine oracle ragConfigured threshold products
    user_profile.skin_type (user_profile.sensitivity_level.getD "moderate")
  match assign_time_slots products user_profile with
  | .error _ => create_fallback_routine
  | .ok assigned =>
    let morning_routine := create_time_routine assigned.1 .morning user_profile
    let evening_routine := create_time_routine assigned.2 .evening user_profile
    { morning_routine := morning_routine,
      evening_routine := evening_routine,
      weekly_schedule := generate_weekly_schedule (morning_routine ++ evening_routine),
      estimated_time_morning := estimate_routine_time morning_routine,
      estimated_time_evening := estimate_routine_time evening_routine,
      introduction_timeline :=
        create_introduction_timeline (morning_routine ++ evening_routine),
      general_guidelines :=
        generate_general_guidelines user_profile conflict_analysis.overall_risk_score,
      personalization_notes := generate_personalization_notes user_profile }

end V0

namespace Cur

/-- The `RoutineTime` enum of the current optimizer. -/
inductive RoutineTime
  | morning | evening | both
deriving DecidableEq

/-- The `ApplicationFrequency` enum of the current optimizer. -/
inductive ApplicationFrequency
  | daily | alternate_days | twice_weekly | weekly | as_needed
deriving DecidableEq

/-- The `ProductCategory` enum of the current optimizer. -/
inductive ProductCategory
  | cleanser | toner | essence | serum | treatment | moisturizer | sunscreen | oil | mask
deriving DecidableEq

/-- A `Product` row as the current optimizer consumes it: each ingredient
reference carries the ingredient's name and its `is_active` flag. -/
structure ProductRow where
  product_id : Nat
  product_name : String
  product_type : Option String := none
  product_ingredients : List (String × Bool) := []
deriving DecidableEq

/-- The lowercased active ingredient names of a product, the
`[pi.ingredient.ingredient_name.lower() for pi in ... if pi.is_active]` list. -/
def active_ingredient_names (p : ProductRow) : List String :=
  (p.product_ingredients.filter (·.2)).map fun e => Py.lower e.1

/-- The `category_keywords` dict in insertion order. -/
def category_keywords : List (ProductCategory × List String) :=
  [(.cleanser, ["cleanser", "cleansing", "foam", "gel cleanser", "face wash"]),
   (.toner, ["toner", "tonic", "astringent", "essence toner"]),
   (.essence, ["essence", "first essence", "treatment essence"]),
   (.serum, ["serum", "concentrate", "ampoule", "booster"]),
   (.treatment, ["treatment", "spot treatment", "targeted"]),
   (.moisturizer, ["moisturizer", "cream", "lotion", "hydrator"]),
   (.sunscreen, ["sunscreen", "spf", "sun protection", "uv protection"]),
   (.oil, ["oil", "facial oil", "face oil"]),
   (.mask, ["mask", "sheet mask", "sleeping mask"])]

/-- The `category_wait_times` dict with its `.get(category, 0)` default. -/
def category_wait_times (c : ProductCategory) : Nat :=
  if c = .toner then 1
  else if c = .essence then 2
  else if c = .serum then 5
  else if c = .treatment then 10
  else if c = .moisturizer then 2
  else if c = .oil then 5
  else if c = .sunscreen then 0
  else 0

/-- The `application_order` list (sunscreen last, AM only; no mask entry). -/
def application_order : List ProductCategory :=
  [.cleanser, .toner, .essence, .serum, .treatment, .moisturizer, .oil, .sunscreen]

/-- The `morning_ingredients` set. -/
def morning_ingredients : List String :=
  ["vitamin c", "l-ascorbic acid", "magnesium ascorbyl phosphate",
   "niacinamide", "hyaluronic acid", "peptides", "antioxidants"]

/-- The `evening_ingredients` set. -/
def evening_ingredients : List String :=
  ["retinol", "tretinoin", "retinyl palmitate", "bakuchiol",
   "glycolic acid", "lactic acid", "salicylic acid", "hydroquinone", "kojic acid"]

/-- The `photosensitive_ingredients` set. -/
def photosensitive_ingredients : List String :=
  ["retinol", "tretinoin", "glycolic acid", "lactic acid",
   "hydroquinone", "benzoyl peroxide"]

/-- The `frequency_modifiers` dict in insertion order. -/
def frequency_modifiers : List (String × ApplicationFrequency) :=
  [("retinol", .alternate_days), ("tretinoin", .alternate_days),
   ("glycolic acid", .twice_weekly), ("salicylic acid", .alternate_days),
   ("hydroquinone", .daily)]

/-- The `_determine_product_category` method of the current optimizer: product
type keywords, then product name keywords, then ingredient-based fallbacks,
then the serum default. -/
def opt_determine_product_category (p : ProductRow) : ProductCategory :=
  let product_type := Py.lower ((p.product_type).getD "")
  let byType :=
    if product_type ≠ "" then
      category_keywords.findSome? fun e =>
        if e.2.any (fun kw => Py.strIn kw product_type) then some e.1 else none
    else none
  match byType with
  | some c => c
  | none =>
    let product_name := Py.lower p.product_name
    match category_keywords.findSome? (fun e =>
      if e.2.any (fun kw => Py.strIn kw product_name) then some e.1 else none) with
    | some c => c
    | none =>
      let joined := String.intercalate " " (active_ingredient_names p)
      if ["retinol", "vitamin c", "niacinamide", "salicylic acid", "glycolic acid"].any
          (fun ing => Py.strIn ing joined) then .serum
      else if ["hyaluronic acid", "ceramide", "squalane", "glycerin"].any
          (fun ing => Py.strIn ing joined) then .moisturizer
      else .serum

/-- The per-category lists of the current `_categorize_products`. -/
def opt_categorize_products (products : List ProductRow) (c : ProductCategory) :
    List ProductRow :=
  products.filter fun p => opt_determine_product_category p = c

/-- The per-product body of `_analyze_product_timing`: ingredient affinity
scores, then the category overrides and defaults. -/
def product_timing (p : ProductRow) : RoutineTime :=
  let ingredient_names := active_ingredient_names p
  let morning_score := (ingredient_names.filter fun ing =>
    morning_ingredients.any fun m => Py.strIn m ing).length
  let evening_score := (ingredient_names.filter fun ing =>
    evening_ingredients.any fun m => Py.strIn m ing).length +
    3 * (ingredient_names.filter fun ing =>
      photosensitive_ingredients.any fun m => Py.strIn m ing).length
  let category := opt_determine_product_category p
  if category = .sunscreen then .morning
  else if category = .cleanser then .both
  else if morning_score < evening_score then .evening
  else if evening_score < morning_score then .morning
  else if category = .serum ∨ category = .treatment then .evening
  else .both

/-- The `_analyze_product_timing` dict `product_id -> RoutineTime`, modelled as
a write log (later entries shadow earlier ones, as dict assignment does). -/
def analyze_product_timing (products : List ProductRow) : List (Nat × RoutineTime) :=
  products.map fun p => (p.product_id, product_timing p)

/-- The time filter of `_create_time_specific_routine`: a product joins the
slot when its analyzed timing is that slot or `both`, and a sunscreen always
joins the morning slot. A product id missing from the dict defaults to `both`. -/
def time_included (timing_log : List (Nat × RoutineTime)) (routine_time : RoutineTime)
    (c : ProductCategory) (p : ProductRow) : Bool :=
  let product_timing := (Py.lookupLast timing_log p.product_id).getD .both
  product_timing == routine_time || product_timing == RoutineTime.both ||
    (routine_time == RoutineTime.morning && c == ProductCategory.sunscreen)

/-- The `_determine_frequency` method of the current optimizer. -/
def opt_determine_frequency (p : ProductRow) (conflicts : List ConflictResult)
    (skin_type : Option String) : ApplicationFrequency :=
  let ingredient_names := active_ingredient_names p
  match ingredient_names.findSome? (fun ing =>
    frequency_modifiers.findSome? fun m =>
      if Py.strIn m.1 ing then some m.2 else none) with
  | some f => f
  | none =>
    let joined := String.intercalate " " ingredient_names
    if skin_type = some "sensitive" ∧
        (["retinol", "glycolic acid", "salicylic acid", "benzoyl peroxide"].any
          fun ing => Py.strIn ing joined) then .alternate_days
    else
      let product_conflicts := conflicts.filter fun c =>
        p.product_name = c.ingredient1 ∨ p.product_name = c.ingredient2
      if product_conflicts.any (fun c => c.severity == ConflictSeverity.high) then
        .alternate_days
      else .daily

/-- The `_generate_step_instructions` method. -/
def generate_step_instructions (c : ProductCategory) (routine_time : RoutineTime) :
    String :=
  let base :=
    if c = .cleanser then "Massage onto damp skin, rinse thoroughly with lukewarm water"
    else if c = .toner then "Apply to clean skin using cotton pad or gentle patting motions"
    else if c = .essence then "Pat gently into skin until fully absorbed"
    else if c = .serum then "Apply 2-3 drops to face and neck, pat until absorbed"
    else if c = .treatment then "Apply thin layer to affected areas only"
    else if c = .moisturizer then "Apply evenly to face and neck with gentle upward motions"
    else if c = .oil then "Warm 2-3 drops between palms, press into skin"
    else if c = .sunscreen then
      "Apply liberally 15 minutes before sun exposure, reapply every 2 hours"
    else "Apply as directed on product packaging"
  if routine_time = .evening ∧ c = .treatment then
    base ++ ". Start with 2-3 times per week and increase gradually"
  else base

/-- The `_generate_step_reasons` method. -/
def generate_step_reasons (c : ProductCategory) (routine_time : RoutineTime) :
    List String :=
  (if c = .toner then ["Prepares skin for better absorption of subsequent products"]
   else if c = .serum then ["Active ingredients work best on clean, prepared skin"]
   else if c = .moisturizer then ["Seals in previous products and provides hydration"]
   else if c = .sunscreen then ["Essential protection from UV damage and photoaging"]
   else []) ++
  (if routine_time = .morning then
    (if c = .sunscreen then ["UV protection needed during daytime"]
     else if c = .serum then ["Antioxidants protect skin throughout the day"]
     else [])
   else
    (if c = .treatment then ["Skin repairs and regenerates during sleep"]
     else if c = .oil then ["Overnight nourishment without interfering with sunscreen"]
     else []))

/-- The `RoutineStep` dataclass of the current optimizer. -/
structure RoutineStep where
  step_number : Nat
  product_name : String
  product_id : Option Nat := none
  category : Option ProductCategory := none
  application_time : Option RoutineTime := none
  frequency : ApplicationFrequency := .daily
  wait_minutes : Nat := 0
  instructions : String := ""
  reasons : List String := []
deriving DecidableEq

/-- One constructed step of `_create_time_specific_routine`. -/
def mkStep (routine_time : RoutineTime) (conflicts : List ConflictResult)
    (skin_type : Option String) (n : Nat) (c : ProductCategory) (p : ProductRow) :
    RoutineStep :=
  { step_number := n, product_name := p.product_name,
    product_id := some p.product_id, category := some c,
    application_time := some routine_time,
    frequency := opt_determine_frequency p conflicts skin_type,
    wait_minutes := category_wait_times c,
    instructions := generate_step_instructions c routine_time,
    reasons := generate_step_reasons c routine_time }

/-- The step-construction loop of `_create_time_specific_routine`: cleansers
are skipped in the morning (without consuming a step number). -/
def buildSteps (routine_time : RoutineTime) (conflicts : List ConflictResult)
    (skin_type : Option String) :
    List (ProductCategory × ProductRow) → Nat → List RoutineStep
  | [], _ => []
  | (c, p) :: rest, n =>
    if c = ProductCategory.cleanser ∧ routine_time = RoutineTime.morning then
      buildSteps routine_time conflicts skin_type rest n
    else
      mkStep routine_time conflicts skin_type n c p ::
        buildSteps routine_time conflicts skin_type rest (n + 1)

/-- The time-appropriate products of `_create_time_specific_routine`, gathered
by walking `application_order`. -/
def time_appropriate_products (categorized : ProductCategory → List ProductRow)
    (timing_log : List (Nat × RoutineTime)) (routine_time : RoutineTime) :
    List (ProductCategory × ProductRow) :=
  (application_order.map fun c =>
    ((categorized c).filter (time_included timing_log routine_time c)).map
      fun p => (c, p)).flatten

/-- The `_create_time_specific_routine` method. -/
def create_time_specific_routine (categorized : ProductCategory → List ProductRow)
    (timing_log : List (Nat × RoutineTime)) (routine_time : RoutineTime)
    (conflicts : List ConflictResult) (skin_type : Option String) :
    List RoutineStep :=
  buildSteps routine_time conflicts skin_type
    (time_appropriate_products categorized timing_log routine_time) 1

/-- The step computation of the current `optimize_routine` for one slot:
categorize, analyze timing, then build the slot routine, exactly as the entry
point wires them. -/
def routine_steps (products : List ProductRow) (conflicts : List ConflictResult)
    (skin_type : Option String) (routine_time : RoutineTime) : List RoutineStep :=
  create_time_specific_routine (opt_categorize_products products)
    (analyze_product_timing products) routine_time conflicts skin_type

end Cur

/-- A nonempty list all of whose elements are `a` has last element `a`. -/
theorem getLast_of_allEq {α : Type} (l : List α) (a : α) (hne : l ≠ [])
    (h : ∀ x ∈ l, x = a) : l.getLast? = some a := by
  induction l with
  | nil => exact absurd rfl hne
  | cons x t ih =>
    cases t with
    | nil => rw [List.getLast?_singleton]; exact congrArg some (h x (by simp))
    | cons y u =>
      rw [List.getLast?_cons_cons]
      exact ih (by simp) fun z hz => h z (by simp [hz])

/-- With id-unique products, the timing dict lookup returns exactly the
product's own analyzed timing. -/
theorem timing_lookup_eq (products : List Cur.ProductRow) (p : Cur.ProductRow)
    (hp : p ∈ products)
    (hinj : ∀ q ∈ products, q.product_id = p.product_id → q = p) :
    Py.lookupLast (Cur.analyze_product_timing products) p.product_id =
      some (Cur.product_timing p) := by
  unfold Py.lookupLast Cur.analyze_product_timing
  have hlast : ((products.map fun q => (q.product_id, Cur.product_timing q)).filter
      fun e => e.1 = p.product_id).getLast? =
      some (p.product_id, Cur.product_timing p) := by
    apply getLast_of_allEq
    · intro habs
      have hmem : (p.product_id, Cur.product_timing p) ∈
          (products.map fun q => (q.product_id, Cur.product_timing q)).filter
            fun e => e.1 = p.product_id := by
        rw [List.mem_filter]
        exact ⟨List.mem_map_of_mem _ hp, by simp⟩
      rw [habs] at hmem
      exact List.not_mem_nil _ hmem
    · intro x hx
      rw [List.mem_filter] at hx
      obtain ⟨hmap, hkey⟩ := hx
      rw [List.mem_map] at hmap
      obtain ⟨q, hq, rfl⟩ := hmap
      have hqp : q = p := hinj q hq (by simpa using hkey)
      rw [hqp]
  rw [hlast]
  rfl

/-- A sunscreen-categorized product is timed to the morning slot, whatever its
ingredient scores. -/
theorem product_timing_of_sunscreen (p : Cur.ProductRow)
    (hcat : Cur.opt_determine_product_category p = Cur.ProductCategory.sunscreen) :
    Cur.product_timing p = Cur.RoutineTime.morning := by
  unfold Cur.product_timing
  rw [hcat]
  rfl

/-- Every non-skipped element of the step loop's input produces a step carrying
its product id. -/
theorem buildSteps_mem_of (rt : Cur.RoutineTime) (conflicts : List Cur.ConflictResult)
    (st : Option String) (l : List (Cur.ProductCategory × Cur.ProductRow)) :
    ∀ (n : Nat) (c : Cur.ProductCategory) (p : Cur.ProductRow),
      (c, p) ∈ l →
      ¬(c = Cur.ProductCategory.cleanser ∧ rt = Cur.RoutineTime.morning) →
      ∃ s ∈ Cur.buildSteps rt conflicts st l n, s.product_id = some p.product_id := by
  induction l with
  | nil =>
    intro n c p h _
    exact absurd h (List.not_mem_nil _)
  | cons hd tl ih =>
    intro n c p hmem hskip
    rcases hd with ⟨c0, p0⟩
    rcases List.mem_cons.mp hmem with heq | htl
    · obtain ⟨rfl, rfl⟩ := Prod.mk.injEq .. ▸ And.intro (congrArg Prod.fst heq)
        (congrArg Prod.snd heq)
      unfold Cur.buildSteps
      rw [if_neg hskip]
      exact ⟨_, List.mem_cons_self _ _, rfl⟩
    · unfold Cur.buildSteps
      by_cases hsk : c0 = Cur.ProductCategory.cleanser ∧ rt = Cur.RoutineTime.morning
      · rw [if_pos hsk]
        exact ih n c p htl hskip
      · rw [if_neg hsk]
        obtain ⟨s, hs, hps⟩ := ih (n + 1) c p htl hskip
        exact ⟨s, List.mem_cons_of_mem _ hs, hps⟩

/-- Every produced step originates from some input pair, whose product id and
category it carries. -/
theorem buildSteps_src (rt : Cur.RoutineTime) (conflicts : List Cur.ConflictResult)
    (st : Option String) (l : List (Cur.ProductCategory × Cur.ProductRow)) :
    ∀ (n : Nat) (s : Cur.RoutineStep), s ∈ Cur.buildSteps rt conflicts st l n →
      ∃ e ∈ l, s.product_id = some e.2.product_id ∧ s.category = some e.1 := by
  induction l with
  | nil =>
    intro n s hs
    exact absurd hs (List.not_mem_nil _)
  | cons hd tl ih =>
    intro n s hs
    rcases hd with ⟨c0, p0⟩
    unfold Cur.buildSteps at hs
    by_cases hsk : c0 = Cur.ProductCategory.cleanser ∧ rt = Cur.RoutineTime.morning
    · rw [if_pos hsk] at hs
      obtain ⟨e, he, hid⟩ := ih n s hs
      exact ⟨e, List.mem_cons_of_mem _ he, hid⟩
    · rw [if_neg hsk] at hs
      rcases List.mem_cons.mp hs with rfl | htl
      · exact ⟨(c0, p0), List.mem_cons_self _ _, rfl, rfl⟩
      · obtain ⟨e, he, hid⟩ := ih (n + 1) s htl
        exact ⟨e, List.mem_cons_of_mem _ he, hid⟩

/-- Introduction form for membership in the time-appropriate product list. -/
theorem mem_time_appropriate_intro (categorized : Cur.ProductCategory → List Cur.ProductRow)
    (log : List (Nat × Cur.RoutineTime)) (rt : Cur.RoutineTime)
    (c : Cur.ProductCategory) (p : Cur.ProductRow)
    (hc : c ∈ Cur.application_order) (hp : p ∈ (categorized c).filter (Cur.time_included log rt c)) :
    (c, p) ∈ Cur.time_appropriate_products categorized log rt := by
  unfold Cur.time_appropriate_products
  rw [List.mem_flatten]
  exact ⟨((categorized c).filter (Cur.time_included log rt c)).map (fun q => (c, q)),
    List.mem_map_of_mem _ hc, List.mem_map_of_mem _ hp⟩

/-- Elimination form for membership in the time-appropriate product list. -/
theorem mem_time_appropriate_elim (categorized : Cur.ProductCategory → List Cur.ProductRow)
    (log : List (Nat × Cur.RoutineTime)) (rt : Cur.RoutineTime)
    (e : Cur.ProductCategory × Cur.ProductRow)
    (he : e ∈ Cur.time_appropriate_products categorized log rt) :
    e.1 ∈ Cur.application_order ∧ e.2 ∈ categorized e.1 ∧
      Cur.time_included log rt e.1 e.2 = true := by
  unfold Cur.time_appropriate_products at he
  rw [List.mem_flatten] at he
  obtain ⟨L, hL, heL⟩ := he
  rw [List.mem_map] at hL
  obtain ⟨c, hc, rfl⟩ := hL
  rw [List.mem_map] at heL
  obtain ⟨q, hq, rfl⟩ := heL
  rw [List.mem_filter] at hq
  exact ⟨hc, hq.1, hq.2⟩

/-- C7: a product the scheduler categorizes as sunscreen is timed to the
morning slot, appears among the morning steps, and never appears among the
evening steps, regardless of its ingredients' affinity scores (stated for
products with unique ids, as database rows have). -/
theorem sunscreen_morning_never_evening (products : List Cur.ProductRow)
    (conflicts : List Cur.ConflictResult) (skin_type : Option String)
    (p : Cur.ProductRow) (hp : p ∈ products)
    (hinj : ∀ q ∈ products, q.product_id = p.product_id → q = p)
    (hcat : Cur.opt_determine_product_category p = Cur.ProductCategory.sunscreen) :
    Py.lookupLast (Cur.analyze_product_timing products) p.product_id =
      some Cur.RoutineTime.morning ∧
    (∃ s ∈ Cur.routine_steps products conflicts skin_type Cur.RoutineTime.morning,
      s.product_id = some p.product_id) ∧
    (∀ s ∈ Cur.routine_steps products conflicts skin_type Cur.RoutineTime.evening,
      s.product_id ≠ some p.product_id) := by
  have htiming : Py.lookupLast (Cur.analyze_product_timing products) p.product_id =
      some Cur.RoutineTime.morning := by
    rw [timing_lookup_eq products p hp hinj, product_timing_of_sunscreen p hcat]
  refine ⟨htiming, ?_, ?_⟩
  · have hfilter : p ∈ (Cur.opt_categorize_products products
        Cur.ProductCategory.sunscreen).filter
        (Cur.time_included (Cur.analyze_product_timing products)
          Cur.RoutineTime.morning Cur.ProductCategory.sunscreen) := by
      rw [List.mem_filter]
      constructor
      · unfold Cur.opt_categorize_products
        rw [List.mem_filter]
        exact ⟨hp, by simp [hcat]⟩
      · unfold Cur.time_included
        rw [htiming]
        rfl
    have hmem := mem_time_appropriate_intro (Cur.opt_categorize_products products)
      (Cur.analyze_product_timing products) Cur.RoutineTime.morning
      Cur.ProductCategory.sunscreen p (by decide) hfilter
    exact buildSteps_mem_of Cur.RoutineTime.morning conflicts skin_type _ 1
      Cur.ProductCategory.sunscreen p hmem (by intro h; cases h.1)
  · intro s hs habs
    obtain ⟨e, he, hid, _⟩ :=
      buildSteps_src Cur.RoutineTime.evening conflicts skin_type _ 1 s hs
    obtain ⟨_, hpcat, hinc⟩ := mem_time_appropriate_elim _ _ _ e he
    have hq : e.2 ∈ products := by
      unfold Cur.opt_categorize_products at hpcat
      exact (List.mem_filter.mp hpcat).1
    have hqp : e.2 = p := by
      apply hinj e.2 hq
      have := hid ▸ habs
      exact Option.some.inj this
    rw [hqp] at hinc
    unfold Cur.time_included at hinc
    rw [htiming] at hinc
    simp at hinc

namespace CurEx

/-- A sunscreen product with no ingredients listed. -/
def pSunscreen : Cur.ProductRow :=
  { product_id := 1, product_name := "Daily Sunscreen SPF50" }

end CurEx

/-- Witness for C7 on a concrete one-product routine. -/
theorem sunscreen_morning_never_evening_witness :
    (CurEx.pSunscreen ∈ [CurEx.pSunscreen]) ∧
    (∀ q ∈ [CurEx.pSunscreen],
      q.product_id = CurEx.pSunscreen.product_id → q = CurEx.pSunscreen) ∧
    Cur.opt_determine_product_category CurEx.pSunscreen = Cur.ProductCategory.sunscreen ∧
    (Py.lookupLast (Cur.analyze_product_timing [CurEx.pSunscreen])
        CurEx.pSunscreen.product_id = some Cur.RoutineTime.morning ∧
    (∃ s ∈ Cur.routine_steps [CurEx.pSunscreen] [] none Cur.RoutineTime.morning,
      s.product_id = some CurEx.pSunscreen.product_id) ∧
    (∀ s ∈ Cur.routine_steps [CurEx.pSunscreen] [] none Cur.RoutineTime.evening,
      s.product_id ≠ some CurEx.pSunscreen.product_id)) :=
  ⟨by simp, fun q hq _ => by simpa using hq, rfl,
    sunscreen_morning_never_evening [CurEx.pSunscreen] [] none CurEx.pSunscreen
      (by simp) (fun q hq _ => by simpa using hq) rfl⟩

/-- Every step built for a slot carries that slot (morning or evening only). -/
theorem v0_create_time_routine_slot (l : List V0.AssignedProduct)
    (slot : V0.RoutineTimeSlot) (prof : V0.UserProfile) :
    ∀ s ∈ V0.create_time_routine l slot prof, s.time_slot = slot := by
  intro s hs
  unfold V0.create_time_routine at hs
  dsimp only at hs
  rw [List.mem_map] at hs
  obtain ⟨e, _, rfl⟩ := hs
  rfl

/-- The category enum list is exhaustive. -/
theorem mem_categoryEnumMembers (c : V0.ProductCategoryEnum) :
    c ∈ V0.categoryEnumMembers := by
  cases c <;> decide

/-- Every input product appears (with its category and priority) in the
dict-iteration order consumed by `_assign_time_slots`. -/
theorem mem_orderedCategorized (products : List V0.Product) (prof : V0.UserProfile)
    (p : V0.Product) (hp : p ∈ products) :
    (V0.determine_product_category p,
      (⟨p, V0.determine_product_priority p prof⟩ : V0.CategorizedProduct)) ∈
      V0.orderedCategorized products prof := by
  unfold V0.orderedCategorized
  rw [List.mem_flatten]
  refine ⟨(V0.categorize_products products prof (V0.determine_product_category p)).map
      (fun cp => (V0.determine_product_category p, cp)),
    List.mem_map_of_mem _ (mem_categoryEnumMembers _), ?_⟩
  apply List.mem_map_of_mem
  unfold V0.categorize_products
  exact List.mem_map_of_mem _ (List.mem_filter.mpr ⟨hp, by simp⟩)

/-- If any product in the remaining assignment input is timed to `both`, the
assignment loop raises `KeyError`. -/
theorem assignLoop_error :
    ∀ (l : List (V0.ProductCategoryEnum × V0.CategorizedProduct))
      (m ev : List V0.AssignedProduct),
      (∃ e ∈ l, V0.determine_optimal_time_slot e.2.prod = V0.RoutineTimeSlot.both) →
      V0.assignLoop l m ev = .error "KeyError: RoutineTimeSlot.BOTH" := by
  intro l
  induction l with
  | nil =>
    intro m ev h
    obtain ⟨e, he, _⟩ := h
    exact absurd he (List.not_mem_nil _)
  | cons hd tl ih =>
    intro m ev h
    obtain ⟨e, he, hslot⟩ := h
    rcases hd with ⟨c, cp⟩
    rcases List.mem_cons.mp he with rfl | hmem
    · unfold V0.assignLoop
      rw [hslot]
    · cases hcase : V0.determine_optimal_time_slot cp.prod with
      | morning =>
        unfold V0.assignLoop
        rw [hcase]
        exact ih _ _ ⟨e, hmem, hslot⟩
      | evening =>
        unfold V0.assignLoop
        rw [hcase]
        exact ih _ _ ⟨e, hmem, hslot⟩
      | both =>
        unfold V0.assignLoop
        rw [hcase]

/-- A raising `_assign_time_slots` sends `optimize_routine` to the fallback. -/
theorem optimize_routine_error (oracle : V0.Oracle) (rc : Bool) (thr : ℚ)
    (products : List V0.Product) (profile : V0.UserProfile) (e : String)
    (h : V0.assign_time_slots products profile = .error e) :
    V0.optimize_routine oracle rc thr products profile = V0.create_fallback_routine := by
  simp only [V0.optimize_routine, h]

/-- A successful `_assign_time_slots` makes the two slot routines exactly the
two `_create_time_routine` results. -/
theorem optimize_routine_ok (oracle : V0.Oracle) (rc : Bool) (thr : ℚ)
    (products : List V0.Product) (profile : V0.UserProfile)
    (mv : List V0.AssignedProduct × List V0.AssignedProduct)
    (h : V0.assign_time_slots products profile = .ok mv) :
    (V0.optimize_routine oracle rc thr products profile).morning_routine =
      V0.create_time_routine mv.1 .morning profile ∧
    (V0.optimize_routine oracle rc thr products profile).evening_routine =
      V0.create_time_routine mv.2 .evening profile := by
  simp only [V0.optimize_routine, h]
  exact ⟨trivial, trivial⟩

/-- C10: no step of any returned ver.0 routine carries the `both` slot, the
fallback routine has empty slots and the manual-review note, and whenever any
input product is timed to `both` (the `assigned` dict has no such key),
`optimize_routine` returns that fallback instead of a routine. -/
theorem v0_no_both_slot_and_both_falls_back (oracle : V0.Oracle) (rc : Bool)
    (thr : ℚ) (products : List V0.Product) (profile : V0.UserProfile) :
    ((V0.optimize_routine oracle rc thr products profile).morning_routine ++
      (V0.optimize_routine oracle rc thr products profile).evening_routine).all
      (fun s => s.time_slot != V0.RoutineTimeSlot.both) = true ∧
    V0.create_fallback_routine.morning_routine = [] ∧
    V0.create_fallback_routine.evening_routine = [] ∧
    V0.create_fallback_routine.personalization_notes =
      ["Routine optimization failed - manual review needed"] ∧
    ((∃ p ∈ products, V0.determine_optimal_time_slot p = V0.RoutineTimeSlot.both) →
      V0.optimize_routine oracle rc thr products profile =
        V0.create_fallback_routine) := by
  refine ⟨?_, rfl, rfl, rfl, ?_⟩
  · rw [List.all_eq_true]
    intro s hs
    rcases hassign : V0.assign_time_slots products profile with e | mv
    · rw [optimize_routine_error oracle rc thr products profile e hassign] at hs
      simp [V0.create_fallback_routine] at hs
    · obtain ⟨hm, hev⟩ := optimize_routine_ok oracle rc thr products profile mv hassign
      rw [hm, hev, List.mem_append] at hs
      rcases hs with hs | hs
      · rw [v0_create_time_routine_slot _ _ _ s hs]
        rfl
      · rw [v0_create_time_routine_slot _ _ _ s hs]
        rfl
  · intro hex
    obtain ⟨p, hp, hslot⟩ := hex
    have herr : V0.assign_time_slots products profile =
        .error "KeyError: RoutineTimeSlot.BOTH" :=
      assignLoop_error _ [] []
        ⟨_, mem_orderedCategorized products profile p hp, hslot⟩
    exact optimize_routine_error oracle rc thr products profile _ herr

namespace V0Ex

/-- A product whose single ingredient name contains `bha`, which
`time_preferences` sends to the `both` slot. -/
def bhaProduct : V0.Product := { name := "bha toner", ingredients := ["bha"] }

/-- A quiet pair of collaborators: the rule store holds nothing and the
retriever is unavailable. -/
def trivOracle : V0.Oracle :=
  { dbLookup := fun _ _ => .ok none,
    ragQuery := fun _ _ _ => .error "retriever unavailable" }

end V0Ex

/-- Witness for C10: one `bha` product trips the missing `both` key, and the
whole optimization collapses to the fallback routine. -/
theorem v0_no_both_slot_and_both_falls_back_witness :
    V0.determine_optimal_time_slot V0Ex.bhaProduct = V0.RoutineTimeSlot.both ∧
    ((V0.optimize_routine V0Ex.trivOracle false (3/5) [V0Ex.bhaProduct]
        {}).morning_routine ++
      (V0.optimize_routine V0Ex.trivOracle false (3/5) [V0Ex.bhaProduct]
        {}).evening_routine).all
      (fun s => s.time_slot != V0.RoutineTimeSlot.both) = true ∧
    V0.optimize_routine V0Ex.trivOracle false (3/5) [V0Ex.bhaProduct] {} =
      V0.create_fallback_routine :=
  ⟨rfl,
    (v0_no_both_slot_and_both_falls_back V0Ex.trivOracle false (3/5)
      [V0Ex.bhaProduct] {}).1,
    (v0_no_both_slot_and_both_falls_back V0Ex.trivOracle false (3/5)
      [V0Ex.bhaProduct] {}).2.2.2.2 ⟨V0Ex.bhaProduct, by simp, rfl⟩⟩

/-- Inserting into a sorted list only adds the inserted element. -/
theorem mem_insertSortedBy {α : Type} (key : α → Nat) (x y : α) :
    ∀ l, y ∈ V0.insertSortedBy key x l → y = x ∨ y ∈ l := by
  intro l
  induction l with
  | nil =>
    intro h
    simp [V0.insertSortedBy] at h
    exact Or.inl h
  | cons z t ih =>
    intro h
    unfold V0.insertSortedBy at h
    by_cases hc : key z ≤ key x
    · rw [if_pos hc] at h
      rcases List.mem_cons.mp h with rfl | h2
      · exact Or.inr (List.mem_cons_self _ _)
      · rcases ih h2 with h3 | h3
        · exact Or.inl h3
        · exact Or.inr (List.mem_cons_of_mem _ h3)
    · rw [if_neg hc] at h
      rcases List.mem_cons.mp h with rfl | h2
      · exact Or.inl rfl
      · exact Or.inr h2

/-- Elements of the insertion-sort fold come from the accumulator or input. -/
theorem stableSortBy_sub {α : Type} (key : α → Nat) :
    ∀ (l acc : List α) (y : α),
      y ∈ l.foldl (fun a x => V0.insertSortedBy key x a) acc → y ∈ acc ∨ y ∈ l := by
  intro l
  induction l with
  | nil =>
    intro acc y h
    exact Or.inl h
  | cons x t ih =>
    intro acc y h
    rcases ih (V0.insertSortedBy key x acc) y h with h2 | h2
    · rcases mem_insertSortedBy key x y acc h2 with rfl | h3
      · exact Or.inr (List.mem_cons_self _ _)
      · exact Or.inl h3
    · exact Or.inr (List.mem_cons_of_mem _ h2)

/-- The stable sort only permutes: every output element was an input. -/
theorem mem_stableSortBy {α : Type} (key : α → Nat) (l : List α) (y : α)
    (hy : y ∈ V0.stableSortBy key l) : y ∈ l :=
  (stableSortBy_sub key l [] y hy).resolve_left (List.not_mem_nil y)

/-- Pair components of an enumerated list are elements of the list. -/
theorem mem_of_mem_enumFrom {α : Type} :
    ∀ (l : List α) (n : Nat) (e : Nat × α), e ∈ List.enumFrom n l → e.2 ∈ l := by
  intro l
  induction l with
  | nil =>
    intro n e h
    exact absurd h (List.not_mem_nil _)
  | cons x t ih =>
    intro n e h
    rcases List.mem_cons.mp h with rfl | h2
    · exact List.mem_cons_self _ _
    · exact List.mem_cons_of_mem _ (ih (n + 1) e h2)

/-- Every step built for a slot carries a category from that slot's
`category_order` list. -/
theorem v0_step_category_mem (l : List V0.AssignedProduct)
    (slot : V0.RoutineTimeSlot) (prof : V0.UserProfile) :
    ∀ s ∈ V0.create_time_routine l slot prof,
      s.product.category ∈ V0.category_order slot := by
  intro s hs
  unfold V0.create_time_routine at hs
  dsimp only at hs
  rw [List.mem_map] at hs
  obtain ⟨e, he, rfl⟩ := hs
  have he2 := mem_of_mem_enumFrom _ 0 e he
  rw [List.mem_flatten] at he2
  obtain ⟨L, hL, heL⟩ := he2
  rw [List.mem_map] at hL
  obtain ⟨c, hc, rfl⟩ := hL
  have hin := mem_stableSortBy _ _ _ heL
  rw [List.mem_filter] at hin
  have hcat : e.2.category = c := by simpa using hin.2
  show e.2.category ∈ V0.category_order slot
  rw [hcat]
  exact hc

namespace V0Ex

/-- A product that categorizes as mask by its name. -/
def maskProduct : V0.Product := { name := "green clay mask", ingredients := [] }

end V0Ex

/-- C9: no returned ver.0 routine contains a mask- or mist-categorized step —
those categories appear in neither slot's `category_order` list — and the
concrete name-categorized mask product is silently dropped from both slots. -/
theorem v0_routine_never_schedules_mask_or_mist (oracle : V0.Oracle) (rc : Bool)
    (thr : ℚ) (products : List V0.Product) (profile : V0.UserProfile) :
    ((V0.optimize_routine oracle rc thr products profile).morning_routine ++
      (V0.optimize_routine oracle rc thr products profile).evening_routine).all
      (fun s => s.product.category != V0.ProductCategoryEnum.mask &&
        s.product.category != V0.ProductCategoryEnum.mist) = true ∧
    V0.determine_product_category V0Ex.maskProduct = V0.ProductCategoryEnum.mask ∧
    (V0.optimize_routine V0Ex.trivOracle false (3/5) [V0Ex.maskProduct]
      {}).morning_routine = [] ∧
    (V0.optimize_routine V0Ex.trivOracle false (3/5) [V0Ex.maskProduct]
      {}).evening_routine = [] := by
  refine ⟨?_, rfl, rfl, rfl⟩
  rw [List.all_eq_true]
  intro s hs
  have hgoal : s.product.category ≠ V0.ProductCategoryEnum.mask ∧
      s.product.category ≠ V0.ProductCategoryEnum.mist := by
    rcases hassign : V0.assign_time_slots products profile with e | mv
    · rw [optimize_routine_error oracle rc thr products profile e hassign] at hs
      simp [V0.create_fallback_routine] at hs
    · obtain ⟨hm, hev⟩ := optimize_routine_ok oracle rc thr products profile mv hassign
      rw [hm, hev, List.mem_append] at hs
      rcases hs with hs | hs
      · have hmem := v0_step_category_mem _ _ _ s hs
        constructor
        · intro habs
          rw [habs] at hmem
          exact absurd hmem (by decide)
        · intro habs
          rw [habs] at hmem
          exact absurd hmem (by decide)
      · have hmem := v0_step_category_mem _ _ _ s hs
        constructor
        · intro habs
          rw [habs] at hmem
          exact absurd hmem (by decide)
        · intro habs
          rw [habs] at hmem
          exact absurd hmem (by decide)
  rw [Bool.and_eq_true, bne_iff_ne, bne_iff_ne]
  exact hgoal

/-- Filtering commutes with flattening. -/
theorem filter_flatten {α : Type} (p : α → Bool) :
    ∀ L : List (List α), L.flatten.filter p = (L.map (·.filter p)).flatten := by
  intro L
  induction L with
  | nil => rfl
  | cons x t ih =>
    simp only [List.flatten_cons, List.filter_append, List.map_cons, ih]

/-- Mapping commutes with flattening. -/
theorem map_flatten {α β : Type} (g : α → β) :
    ∀ L : List (List α), L.flatten.map g = (L.map (·.map g)).flatten := by
  intro L
  induction L with
  | nil => rfl
  | cons x t ih =>
    simp only [List.flatten_cons, List.map_append, List.map_cons, ih]

/-- Filtering a mapped list filters the preimages. -/
theorem filter_map_comm {α β : Type} (f : α → β) (p : β → Bool) :
    ∀ l : List α, (l.map f).filter p = (l.filter fun x => p (f x)).map f := by
  intro l
  induction l with
  | nil => rfl
  | cons x t ih =>
    simp only [List.map_cons, List.filter_cons]
    cases hpf : p (f x) <;> simp [hpf, ih]

/-- Filtering by a constant keeps everything or nothing. -/
theorem filter_const {α : Type} (b : Bool) :
    ∀ l : List α, l.filter (fun _ => b) = if b then l else [] := by
  intro l
  induction l with
  | nil => cases b <;> rfl
  | cons x t ih => cases b <;> simp_all

/-- A map that is constant on its input is a `replicate`. -/
theorem map_const_of_allEq {α β : Type} (g : α → β) (c : β) :
    ∀ L : List α, (∀ x ∈ L, g x = c) → L.map g = List.replicate L.length c := by
  intro L
  induction L with
  | nil => intro _; rfl
  | cons x t ih =>
    intro h
    simp only [List.map_cons, List.length_cons, List.replicate_succ]
    rw [h x (by simp), ih fun y hy => h y (by simp [hy])]

/-- Enumerating from `n` and taking successors of the indices yields the
contiguous range starting at `n + 1`. -/
theorem enumFrom_map_succ_fst {α : Type} :
    ∀ (l : List α) (n : Nat),
      (List.enumFrom n l).map (fun e => e.1 + 1) = List.range' (n + 1) l.length := by
  intro l
  induction l with
  | nil => intro n; rfl
  | cons x t ih =>
    intro n
    simp only [List.enumFrom, List.map_cons, List.length_cons, List.range'_succ]
    rw [ih (n + 1)]

/-- Enumerating and reading a function of the value is just mapping it. -/
theorem enumFrom_map_snd_g {α β : Type} (g : α → β) :
    ∀ (l : List α) (n : Nat),
      (List.enumFrom n l).map (fun e => g e.2) = l.map g := by
  intro l
  induction l with
  | nil => intro n; rfl
  | cons x t ih =>
    intro n
    simp only [List.enumFrom, List.map_cons]
    rw [ih (n + 1)]

/-- Stable insertion grows the length by one. -/
theorem length_insertSortedBy {α : Type} (key : α → Nat) (x : α) :
    ∀ l, (V0.insertSortedBy key x l).length = l.length + 1 := by
  intro l
  induction l with
  | nil => rfl
  | cons y t ih =>
    unfold V0.insertSortedBy
    by_cases hc : key y ≤ key x
    · rw [if_pos hc]
      simp [ih]
    · rw [if_neg hc]
      simp

/-- The insertion-sort fold preserves the total length. -/
theorem length_stableSortBy_fold {α : Type} (key : α → Nat) :
    ∀ (l acc : List α),
      (l.foldl (fun a x => V0.insertSortedBy key x a) acc).length =
        acc.length + l.length := by
  intro l
  induction l with
  | nil => intro acc; rfl
  | cons x t ih =>
    intro acc
    show (t.foldl (fun a x => V0.insertSortedBy key x a)
      (V0.insertSortedBy key x acc)).length = _
    rw [ih, length_insertSortedBy]
    simp only [List.length_cons]
    omega

/-- The stable sort preserves length. -/
theorem length_stableSortBy {α : Type} (key : α → Nat) (l : List α) :
    (V0.stableSortBy key l).length = l.length := by
  unfold V0.stableSortBy
  rw [length_stableSortBy_fold]
  simp

/-- Within one category group, the sorted products' category sequence is that
category repeated once per product. -/
theorem stableSort_filter_categories (l : List V0.AssignedProduct)
    (c : V0.ProductCategoryEnum) :
    (V0.stableSortBy (fun a => a.priority.value)
      (l.filter fun a => a.category = c)).map (fun a => a.category) =
    List.replicate ((l.filter fun a => a.category = c).length) c := by
  rw [map_const_of_allEq _ c _ fun x hx => by
    have := mem_stableSortBy _ _ _ hx
    rw [List.mem_filter] at this
    simpa using this.2]
  rw [length_stableSortBy]

/-- The ver.0 slot builder numbers its steps 1, 2, …, N with no gaps. -/
theorem v0_create_time_routine_numbers (l : List V0.AssignedProduct)
    (slot : V0.RoutineTimeSlot) (prof : V0.UserProfile) :
    (V0.create_time_routine l slot prof).map (fun s => s.application_order) =
      List.range' 1 (V0.create_time_routine l slot prof).length := by
  unfold V0.create_time_routine
  dsimp only
  rw [List.map_map, List.length_map]
  have h1 : (fun s : V0.ProductApplication => s.application_order) ∘
      (fun e : Nat × V0.AssignedProduct =>
        ({ product := e.2, time_slot := slot, application_order := e.1 + 1,
           frequency := V0.v0_determine_frequency e.2 prof,
           wait_time_minutes := V0.wait_times e.2.category,
           priority := e.2.priority,
           notes := V0.generate_application_notes e.2 prof } : V0.ProductApplication)) =
      fun e : Nat × V0.AssignedProduct => e.1 + 1 := rfl
  rw [h1]
  have h2 := enumFrom_map_succ_fst
    (((V0.category_order slot).map fun c =>
      V0.stableSortBy (fun a => a.priority.value)
        (l.filter fun a => a.category = c)).flatten) 0
  rw [List.enum]
  rw [h2, List.enumFrom_length]

/-- The ver.0 slot builder's category sequence is exactly the slot's
`category_order` categories in order, each repeated once per product of that
category. -/
theorem v0_create_time_routine_categories (l : List V0.AssignedProduct)
    (slot : V0.RoutineTimeSlot) (prof : V0.UserProfile) :
    (V0.create_time_routine l slot prof).map (fun s => s.product.category) =
      ((V0.category_order slot).map fun c =>
        List.replicate ((l.filter fun a => a.category = c).length) c).flatten := by
  unfold V0.create_time_routine
  dsimp only
  rw [List.map_map]
  have h1 : (fun s : V0.ProductApplication => s.product.category) ∘
      (fun e : Nat × V0.AssignedProduct =>
        ({ product := e.2, time_slot := slot, application_order := e.1 + 1,
           frequency := V0.v0_determine_frequency e.2 prof,
           wait_time_minutes := V0.wait_times e.2.category,
           priority := e.2.priority,
           notes := V0.generate_application_notes e.2 prof } : V0.ProductApplication)) =
      fun e : Nat × V0.AssignedProduct => e.2.category := rfl
  rw [h1, List.enum, enumFrom_map_snd_g (fun a : V0.AssignedProduct => a.category)]
  rw [map_flatten, List.map_map]
  apply congrArg List.flatten
  apply List.map_congr_left
  intro c _
  exact stableSort_filter_categories l c

namespace Cur

/-- Whether the step loop keeps a pair (cleansers are dropped in the morning). -/
def kept (rt : RoutineTime) (e : ProductCategory × ProductRow) : Bool :=
  !(decide (e.1 = ProductCategory.cleanser ∧ rt = RoutineTime.morning))

end Cur

/-- The current step loop numbers its kept steps contiguously from `n`. -/
theorem buildSteps_numbers (rt : Cur.RoutineTime) (cf : List Cur.ConflictResult)
    (st : Option String) :
    ∀ (l : List (Cur.ProductCategory × Cur.ProductRow)) (n : Nat),
      (Cur.buildSteps rt cf st l n).map (fun s => s.step_number) =
        List.range' n (Cur.buildSteps rt cf st l n).length := by
  intro l
  induction l with
  | nil => intro n; rfl
  | cons hd tl ih =>
    intro n
    rcases hd with ⟨c, p⟩
    unfold Cur.buildSteps
    by_cases hsk : c = Cur.ProductCategory.cleanser ∧ rt = Cur.RoutineTime.morning
    · rw [if_pos hsk]
      exact ih n
    · rw [if_neg hsk]
      simp only [List.map_cons, List.length_cons, List.range'_succ]
      rw [ih (n + 1)]
      rfl

/-- The current step loop's category sequence is the kept input categories. -/
theorem buildSteps_categories (rt : Cur.RoutineTime) (cf : List Cur.ConflictResult)
    (st : Option String) :
    ∀ (l : List (Cur.ProductCategory × Cur.ProductRow)) (n : Nat),
      (Cur.buildSteps rt cf st l n).map (fun s => s.category) =
        (l.filter (Cur.kept rt)).map (fun e => some e.1) := by
  intro l
  induction l with
  | nil => intro n; rfl
  | cons hd tl ih =>
    intro n
    rcases hd with ⟨c, p⟩
    unfold Cur.buildSteps
    rw [List.filter_cons]
    by_cases hsk : c = Cur.ProductCategory.cleanser ∧ rt = Cur.RoutineTime.morning
    · rw [if_pos hsk]
      have hk : Cur.kept rt (c, p) = false := by simp [Cur.kept, hsk]
      rw [hk]
      simp only [Bool.false_eq_true, if_false]
      exact ih n
    · rw [if_neg hsk]
      have hk : Cur.kept rt (c, p) = true := by simp [Cur.kept, hsk]
      rw [hk]
      simp only [if_true]
      rw [List.map_cons, List.map_cons, ih (n + 1)]
      rfl

/-- The current slot builder numbers its steps 1, 2, …, N with no gaps. -/
theorem create_time_specific_routine_numbers
    (categorized : Cur.ProductCategory → List Cur.ProductRow)
    (log : List (Nat × Cur.RoutineTime)) (rt : Cur.RoutineTime)
    (cf : List Cur.ConflictResult) (st : Option String) :
    (Cur.create_time_specific_routine categorized log rt cf st).map
        (fun s => s.step_number) =
      List.range' 1 (Cur.create_time_specific_routine categorized log rt cf st).length :=
  buildSteps_numbers rt cf st _ 1

/-- The current slot builder's category sequence is exactly `application_order`
in order, every category repeated once per included product — except cleansers,
dropped from the morning slot. -/
theorem create_time_specific_routine_categories
    (categorized : Cur.ProductCategory → List Cur.ProductRow)
    (log : List (Nat × Cur.RoutineTime)) (rt : Cur.RoutineTime)
    (cf : List Cur.ConflictResult) (st : Option String) :
    (Cur.create_time_specific_routine categorized log rt cf st).map
        (fun s => s.category) =
      (Cur.application_order.map fun c =>
        List.replicate
          (if c = Cur.ProductCategory.cleanser ∧ rt = Cur.RoutineTime.morning then 0
           else ((categorized c).filter (Cur.time_included log rt c)).length)
          (some c)).flatten := by
  unfold Cur.create_time_specific_routine
  rw [buildSteps_categories]
  unfold Cur.time_appropriate_products
  rw [filter_flatten, map_flatten, List.map_map, List.map_map]
  apply congrArg List.flatten
  apply List.map_congr_left
  intro c _
  show ((((categorized c).filter (Cur.time_included log rt c)).map
      (fun p => (c, p))).filter (Cur.kept rt)).map (fun e => some e.1) = _
  rw [filter_map_comm, List.map_map]
  have hkc : (fun p : Cur.ProductRow => Cur.kept rt (c, p)) =
      (fun _ : Cur.ProductRow =>
        !(decide (c = Cur.ProductCategory.cleanser ∧ rt = Cur.RoutineTime.morning))) := rfl
  rw [hkc, filter_const]
  by_cases hsk : c = Cur.ProductCategory.cleanser ∧ rt = Cur.RoutineTime.morning
  · rw [decide_eq_true hsk, if_pos hsk]
    simp
  · rw [decide_eq_false hsk, if_neg hsk]
    simp only [Bool.not_false, if_true]
    exact map_const_of_allEq _ (some c) _ fun x _ => rfl

/-- C8: in both schedulers, every slot's steps are numbered exactly 1..N with
no gaps, and the sequence of step categories is the slot's fixed category
precedence list in order (each category once per scheduled product; the
current scheduler additionally drops morning cleansers before numbering). -/
theorem slot_steps_numbered_and_in_category_order
    (l : List V0.AssignedProduct) (slot : V0.RoutineTimeSlot) (prof : V0.UserProfile)
    (categorized : Cur.ProductCategory → List Cur.ProductRow)
    (log : List (Nat × Cur.RoutineTime)) (rt : Cur.RoutineTime)
    (conflicts : List Cur.ConflictResult) (st : Option String) :
    ((V0.create_time_routine l slot prof).map (fun s => s.application_order) =
      List.range' 1 (V0.create_time_routine l slot prof).length) ∧
    ((V0.create_time_routine l slot prof).map (fun s => s.product.category) =
      ((V0.category_order slot).map fun c =>
        List.replicate ((l.filter fun a => a.category = c).length) c).flatten) ∧
    ((Cur.create_time_specific_routine categorized log rt conflicts st).map
        (fun s => s.step_number) =
      List.range' 1
        (Cur.create_time_specific_routine categorized log rt conflicts st).length) ∧
    ((Cur.create_time_specific_routine categorized log rt conflicts st).map
        (fun s => s.category) =
      (Cur.application_order.map fun c =>
        List.replicate
          (if c = Cur.ProductCategory.cleanser ∧ rt = Cur.RoutineTime.morning then 0
           else ((categorized c).filter (Cur.time_included log rt c)).length)
          (some c)).flatten) :=
  ⟨v0_create_time_routine_numbers l slot prof,
   v0_create_time_routine_categories l slot prof,
   create_time_specific_routine_numbers categorized log rt conflicts st,
   create_time_specific_routine_categories categorized log rt conflicts st⟩
